import Mathlib

/-!
Shallow embedding of the comparative-analytics engine of the gsc-chat
repository (src/app/api/chat/route.ts and the answer-framework half of
src/lib: normalizeGscRow, mergeDeltas, computePreviousRange, runIntent,
buildV2Answer, renderV2AnswerMarkdown), together with proofs settling the
frozen claims about it.

Modelling conventions:
* JavaScript numbers are modelled as rationals (`ℚ`); the engine performs
  only field arithmetic and comparisons, no transcendental operations.
  Floating-point rounding, `NaN` and `Infinity` are outside the model.
* JavaScript strings are Lean `String`s; the string operations the code
  uses (`trim`, `localeCompare`, template literals) are modelled by
  executable char-list functions below.  `localeCompare` is modelled as
  code-point order.
* `Map`/`Set` iteration order (insertion order, first occurrence) and the
  last-entry-wins behaviour of `new Map(pairs)` are modelled explicitly.
* Asynchronous fetching is modelled by an injected function from a query
  plan to a list of raw rows; the engine never performs I/O itself.
-/

/-! ### String helpers (models of the JavaScript string primitives used) -/

/-- Model of JavaScript `String.prototype.trim` (drop leading and trailing
whitespace), executable on `String.data`. -/
def jsTrimAux (l : List Char) : List Char :=
  ((l.dropWhile Char.isWhitespace).reverse.dropWhile Char.isWhitespace).reverse

/-- JavaScript `s.trim()`. -/
def jsTrim (s : String) : String := String.mk (jsTrimAux s.data)

/-- Code-point comparison of char lists; models `a.localeCompare(b) <= 0`. -/
def charListLe : List Char → List Char → Bool
  | [], _ => true
  | _ :: _, [] => false
  | a :: as, b :: bs => if a.toNat = b.toNat then charListLe as bs else decide (a.toNat < b.toNat)

/-- Model of `a.localeCompare(b) <= 0` (code-point collation). -/
def strLe (a b : String) : Bool := charListLe a.data b.data

/-! ### Row normalization (`normalizeGscRow` in src/lib) -/

/-- A JSON-ish JavaScript value, as far as row normalization inspects one:
a string, a number, or anything else. -/
inductive JVal where
  | str (s : String)
  | num (q : ℚ)
  | other
deriving DecidableEq, Repr

/-- A raw Search Console row before validation.  `keys = none` models a
missing or non-array `keys` field; `none` in a numeric field models a
missing field and `JVal.other`/`JVal.str` model present non-number values. -/
structure RawGscRow where
  keys : Option (List JVal)
  clicks : Option JVal
  impressions : Option JVal
  ctr : Option JVal
  position : Option JVal
deriving DecidableEq, Repr

/-- A normalized metric row (`NormalizedGscRow` in the source). -/
structure NormalizedGscRow where
  keys : List String
  clicks : ℚ
  impressions : ℚ
  ctr : ℚ
  position : ℚ
deriving DecidableEq, Repr

/-- `typeof k === "string"` filter step. -/
def strOnly : JVal → Option String
  | .str s => some s
  | _ => none

/-- `typeof v === "number" ? v : 0`. -/
def numOrZero : Option JVal → ℚ
  | some (.num q) => q
  | _ => 0

/-- `normalizeGscRow` from the source: keeps string keys only, rejects rows
with no keys, defaults numeric fields to 0, rescales a percentage ctr. -/
def normalizeGscRow (raw : RawGscRow) : Option NormalizedGscRow :=
  let keys := (raw.keys.getD []).filterMap strOnly
  if keys.isEmpty then none
  else
    let clicks := numOrZero raw.clicks
    let impressions := numOrZero raw.impressions
    let ctrRaw := numOrZero raw.ctr
    let ctr := if ctrRaw > 1 then ctrRaw / 100 else ctrRaw
    let position := numOrZero raw.position
    some ⟨keys, clicks, impressions, ctr, position⟩

/-- Re-injection of a normalized row as a raw row (the identity embedding a
JavaScript caller would use when feeding a normalized row back in). -/
def NormalizedGscRow.toRaw (r : NormalizedGscRow) : RawGscRow :=
  ⟨some (r.keys.map JVal.str), some (.num r.clicks), some (.num r.impressions),
    some (.num r.ctr), some (.num r.position)⟩

/-! ### Delta merge engine (`mergeDeltas` in src/app/api/chat/route.ts) -/

/-- `row.keys[0] ?? ""`. -/
def firstKey (r : NormalizedGscRow) : String := r.keys.headD ""

/-- First-occurrence deduplication with an accumulator of already-seen
keys; models the key iteration order of a JavaScript `Map`/`Set`. -/
def insertionDedupAux : List String → List String → List String
  | _, [] => []
  | seen, k :: ks =>
    if k ∈ seen then insertionDedupAux seen ks
    else k :: insertionDedupAux (k :: seen) ks

/-- Keys of a JavaScript `Map`/`Set` built from a list: distinct, in first
occurrence order. -/
def insertionDedup (l : List String) : List String := insertionDedupAux [] l

/-- The value stored under key `k` in `new Map(rows.map(r => [key r, r]))`:
the last row with that key. -/
def lastWithKey (rows : List NormalizedGscRow) (k : String) : Option NormalizedGscRow :=
  (rows.filter (fun r => firstKey r == k)).getLast?

/-- One merged row of `mergeDeltas`; `key` is the `query` or `page` field. -/
structure DeltaRow where
  key : String
  clicksCurrent : ℚ
  clicksPrevious : ℚ
  deltaClicks : ℚ
  impressionsCurrent : ℚ
  impressionsPrevious : ℚ
  deltaImpressions : ℚ
  ctrCurrent : ℚ
  ctrPrevious : ℚ
  deltaCtr : ℚ
  positionCurrent : ℚ
  positionPrevious : ℚ
  deltaPosition : ℚ
deriving DecidableEq, Repr

/-- Builds one `DeltaRow` from the (optional) current and previous rows of a
key, using zero defaults for a missing side (`c?.clicks ?? 0` etc.). -/
def mkDeltaRow (k : String) (c p : Option NormalizedGscRow) : DeltaRow :=
  let clicksCurrent := c.elim 0 NormalizedGscRow.clicks
  let clicksPrevious := p.elim 0 NormalizedGscRow.clicks
  let impressionsCurrent := c.elim 0 NormalizedGscRow.impressions
  let impressionsPrevious := p.elim 0 NormalizedGscRow.impressions
  let ctrCurrent := c.elim 0 NormalizedGscRow.ctr
  let ctrPrevious := p.elim 0 NormalizedGscRow.ctr
  let positionCurrent := c.elim 0 NormalizedGscRow.position
  let positionPrevious := p.elim 0 NormalizedGscRow.position
  { key := k
    clicksCurrent := clicksCurrent
    clicksPrevious := clicksPrevious
    deltaClicks := clicksCurrent - clicksPrevious
    impressionsCurrent := impressionsCurrent
    impressionsPrevious := impressionsPrevious
    deltaImpressions := impressionsCurrent - impressionsPrevious
    ctrCurrent := ctrCurrent
    ctrPrevious := ctrPrevious
    deltaCtr := ctrCurrent - ctrPrevious
    positionCurrent := positionCurrent
    positionPrevious := positionPrevious
    deltaPosition := positionPrevious - positionCurrent }

/-- Key set of one side's map: distinct first keys in first-occurrence
order (`[...map.keys()]`). -/
def mapKeys (rows : List NormalizedGscRow) : List String :=
  insertionDedup (rows.map firstKey)

/-- `new Set([...curr.keys(), ...prv.keys()].filter(Boolean))`: the union of
both key sets with the empty string removed, in insertion order. -/
def mergeKeys (currRows prevRows : List NormalizedGscRow) : List String :=
  insertionDedup ((mapKeys currRows ++ mapKeys prevRows).filter (fun k => k ≠ ""))

/-- `mergeDeltas` from the source: full outer join of the two row lists on
the first key, skipping the empty key. -/
def mergeDeltas (currRows prevRows : List NormalizedGscRow) : List DeltaRow :=
  (mergeKeys currRows prevRows).map fun k =>
    mkDeltaRow k (lastWithKey currRows k) (lastWithKey prevRows k)

/-! ### Calendar (`parseYmdToUtcDate`, `addUtcDays`, `formatYmdUtc`,
`computePreviousRange` in src/app/api/chat/route.ts)

JavaScript `Date` maps a UTC calendar date to a day number of the proleptic
Gregorian calendar.  We model that map with the standard civil-from-days /
days-from-civil algorithms (era = 400-year cycle of 146097 days); all
divisions below have non-negative operands and match the floor semantics of
the calendar arithmetic. -/

/-- First day-of-era of a year-of-era: `365*yoe + yoe/4 - yoe/100`. -/
def yearStartDoe (yoe : ℕ) : ℕ := 365 * yoe + yoe / 4 - yoe / 100

/-- Year-of-era extraction from a day-of-era (civil-from-days). -/
def yoeOfDoe (doe : ℕ) : ℕ :=
  (doe - doe / 1460 + doe / 36524 - doe / 146096) / 365

/-- Day-of-year (March-based) of a day-of-era. -/
def doyOfDoe (doe : ℕ) : ℕ := doe - yearStartDoe (yoeOfDoe doe)

/-- March-based month index of a day-of-year: `(5*doy + 2)/153`. -/
def mpOfDoy (doy : ℕ) : ℕ := (5 * doy + 2) / 153

/-- Day-of-month of a day-of-year. -/
def domOfDoy (doy : ℕ) : ℕ := doy - (153 * mpOfDoy doy + 2) / 5 + 1

/-- Civil month (1..12) of a day-of-year. -/
def monthOfDoy (doy : ℕ) : ℕ :=
  if mpOfDoy doy < 10 then mpOfDoy doy + 3 else mpOfDoy doy - 9

/-- Day-of-era of a (year-of-era, civil month, day) triple
(days-from-civil). -/
def doeOfCivil (yoe m d : ℕ) : ℕ :=
  let mp := if m > 2 then m - 3 else m + 9
  let doy := (153 * mp + 2) / 5 + d - 1
  365 * yoe + yoe / 4 - yoe / 100 + doy

/-- A calendar date as the `YYYY-MM-DD` digits denote it. -/
structure Ymd where
  year : ℤ
  month : ℤ
  day : ℤ
deriving DecidableEq, Repr

/-- Day number (days since 1970-01-01 UTC, i.e. the JavaScript timestamp
divided by 86 400 000) of a calendar date; models `Date.UTC(y, m-1, d)`. -/
def toDays (x : Ymd) : ℤ :=
  let y := if x.month ≤ 2 then x.year - 1 else x.year
  let era := Int.fdiv y 400
  let yoe := (y - era * 400).toNat
  era * 146097 + (doeOfCivil yoe x.month.toNat x.day.toNat : ℤ) - 719468

/-- Calendar date of a day number; models reading `getUTCFullYear`,
`getUTCMonth`, `getUTCDate` from a JavaScript `Date`. -/
def fromDays (z : ℤ) : Ymd :=
  let n := z + 719468
  let era := Int.fdiv n 146097
  let doe := (n - era * 146097).toNat
  let yoe := yoeOfDoe doe
  let m := monthOfDoy (doyOfDoe doe)
  let d := domOfDoy (doyOfDoe doe)
  let y := (yoe : ℤ) + era * 400
  ⟨if m ≤ 2 then y + 1 else y, (m : ℤ), (d : ℤ)⟩

/-- Model of `parseYmdToUtcDate` (regex parse + `Date.UTC`): JavaScript
`Date.UTC` remaps a year argument in `[0, 99]` to `1900 + year`. -/
def parseYmdToDays (x : Ymd) : ℤ :=
  let y := if 0 ≤ x.year ∧ x.year ≤ 99 then x.year + 1900 else x.year
  toDays ⟨y, x.month, x.day⟩

/-- `addUtcDays` from the source (`setUTCDate(getUTCDate() + days)`). -/
def addUtcDays (d n : ℤ) : ℤ := d + n

/-- A `{ startDate, endDate }` pair of calendar dates. -/
structure DateRange where
  startDate : Ymd
  endDate : Ymd
deriving DecidableEq, Repr

/-- `computePreviousRange` from the source: parse both dates, count the days
of the current range, and step back to the immediately preceding window. -/
def computePreviousRange (current : DateRange) : DateRange :=
  let start := parseYmdToDays current.startDate
  let endD := parseYmdToDays current.endDate
  let days := endD - start + 1
  let prevEnd := addUtcDays start (-1)
  let prevStart := addUtcDays prevEnd (-(days - 1))
  ⟨fromDays prevStart, fromDays prevEnd⟩

/-- Gregorian leap year. -/
def isLeapYear (y : ℤ) : Bool := (y % 4 == 0 && y % 100 != 0) || (y % 400 == 0)

/-- Days in a month of a given year. -/
def daysInMonth (y m : ℤ) : ℤ :=
  if m = 2 then (if isLeapYear y then 29 else 28)
  else if m = 4 ∨ m = 6 ∨ m = 9 ∨ m = 11 then 30 else 31

/-- Well-formedness of a date as written `YYYY-MM-DD`: a 4-digit year and an
actual calendar date. -/
def Ymd.wf (x : Ymd) : Prop :=
  0 ≤ x.year ∧ x.year ≤ 9999 ∧ 1 ≤ x.month ∧ x.month ≤ 12 ∧
    1 ≤ x.day ∧ x.day ≤ daysInMonth x.year x.month

instance (x : Ymd) : Decidable x.wf := by
  unfold Ymd.wf
  infer_instance

/-! ### Intent dispatcher (`runIntent` in src/app/api/chat/route.ts)

Fetching is delegated to an injected function from a query plan to raw
rows; everything downstream of the fetch is pure.  The free-text boundary
heuristics (`clampRowLimit`, URL extraction) happen before `runIntent`'s
core in the source; the model takes their already-resolved outputs
(`rowLimit`, `pageUrl`) as inputs. -/

/-- The ten supported intents (`INTENTS` / the branches of `runIntent`). -/
inductive Intent where
  | TOP_WINNERS_QUERIES
  | TOP_LOSERS_QUERIES
  | TOP_WINNERS_PAGES
  | TOP_LOSERS_PAGES
  | HIGH_IMPRESS_LOW_CTR_PAGES
  | POSITION_UP_CLICKS_DOWN_QUERIES
  | CTR_OPPORTUNITIES_QUERIES
  | BRAND_VS_NONBRAND
  | CANNIBALIZATION_QUERIES
  | DRILLDOWN_PAGE_TO_QUERIES
deriving DecidableEq, Repr

/-- The string value of the intent enum. -/
def intentName : Intent → String
  | .TOP_WINNERS_QUERIES => "TOP_WINNERS_QUERIES"
  | .TOP_LOSERS_QUERIES => "TOP_LOSERS_QUERIES"
  | .TOP_WINNERS_PAGES => "TOP_WINNERS_PAGES"
  | .TOP_LOSERS_PAGES => "TOP_LOSERS_PAGES"
  | .HIGH_IMPRESS_LOW_CTR_PAGES => "HIGH_IMPRESS_LOW_CTR_PAGES"
  | .POSITION_UP_CLICKS_DOWN_QUERIES => "POSITION_UP_CLICKS_DOWN_QUERIES"
  | .CTR_OPPORTUNITIES_QUERIES => "CTR_OPPORTUNITIES_QUERIES"
  | .BRAND_VS_NONBRAND => "BRAND_VS_NONBRAND"
  | .CANNIBALIZATION_QUERIES => "CANNIBALIZATION_QUERIES"
  | .DRILLDOWN_PAGE_TO_QUERIES => "DRILLDOWN_PAGE_TO_QUERIES"

/-- Recency presets. -/
inductive Preset where
  | last7
  | last28
  | last90
deriving DecidableEq, Repr

/-- A resolved date range as carried through the pipeline (opaque
`YYYY-MM-DD` strings, as in the source). -/
structure GscRange where
  startDate : String
  endDate : String
deriving DecidableEq, Repr

/-- Range-wide aggregate metrics. -/
structure GscTotals where
  clicks : ℚ
  impressions : ℚ
  ctr : ℚ
  position : ℚ
deriving DecidableEq, Repr

/-- Grouping dimensions of a query plan. -/
inductive Dimension where
  | query
  | page
deriving DecidableEq, Repr

/-- Dimension filter groups a plan can carry (the shapes `runIntent`
builds). -/
inductive FilterSel where
  | noFilter
  | brandContainsAny (terms : List String)
  | brandContainsNone (terms : List String)
  | pageEquals (url : String)
deriving DecidableEq, Repr

/-- An opaque query plan handed to the injected fetcher. -/
structure QueryPlan where
  rangeStart : String
  rangeEnd : String
  dimensions : List Dimension
  rowLimit : ℕ
  startRow : ℕ
  filters : FilterSel
deriving DecidableEq, Repr

/-- The intent parameters after boundary validation (`ToolArgs`), with
`rowLimit` already clamped. -/
structure ToolArgs where
  intent : Intent
  rowLimit : ℕ
  brandTerms : List String
  pageUrl : Option String
deriving DecidableEq, Repr

/-- One (query, page) entry of a cannibalization aggregate. -/
structure CannibalPage where
  page : String
  clicks : ℚ
  impressions : ℚ
  ctr : ℚ
  position : ℚ
deriving DecidableEq, Repr

/-- Per-period aggregate of a query over its pages. -/
structure CannibalAgg where
  pageCount : ℕ
  totalClicks : ℚ
  totalImpressions : ℚ
  concentration : ℚ
  topPages : List CannibalPage
deriving DecidableEq, Repr

/-- One cannibalization output item. -/
structure CannibalItem where
  query : String
  current : CannibalAgg
  previous : CannibalAgg
  deltaClicks : ℚ
  deltaImpressions : ℚ
  deltaConcentration : ℚ
deriving DecidableEq, Repr

/-- Per-side data of the brand-vs-non-brand result. -/
structure BrandSide where
  totalsCurrent : GscTotals
  totalsPrevious : GscTotals
  topQueries : List DeltaRow
deriving DecidableEq, Repr

/-- The nested items structure of the brand-vs-non-brand result. -/
structure BrandItems where
  brandTerms : List String
  brand : BrandSide
  nonBrand : BrandSide
deriving DecidableEq, Repr

/-- The runtime shape of `items`: `queryRows`/`pageRows` are arrays whose
elements carry a `query` resp. `page` field, `cannibal` is an array of
cannibalization items, `brand` is the (non-array) nested structure. -/
inductive V2Items where
  | queryRows (rows : List DeltaRow)
  | pageRows (rows : List DeltaRow)
  | cannibal (rows : List CannibalItem)
  | brand (b : BrandItems)
deriving DecidableEq, Repr

/-- The `kind` tag of an intent result. -/
inductive V2Kind where
  | query_deltas
  | page_deltas
  | query_list
  | page_list
  | query_page_cannibalization
  | brand_vs_nonbrand
  | page_drilldown
  | empty
deriving DecidableEq, Repr

/-- One intent outcome (`V2IntentResult`). -/
structure V2IntentResult where
  intent : Intent
  preset : Preset
  rowLimit : ℕ
  rangeCurrent : GscRange
  rangePrevious : GscRange
  totalsCurrent : GscTotals
  totalsPrevious : GscTotals
  kind : V2Kind
  items : V2Items
  contextPageUrl : Option String
  contextBrandTerms : Option (List String)
deriving DecidableEq, Repr

/-- `normalizeCtr` from the route: rescale a percentage ctr. -/
def normalizeCtr (raw : ℚ) : ℚ := if raw > 1 then raw / 100 else raw

/-- `typeof v === "number" ? v : 0` on an optional raw field. -/
def rawNumOrZero (v : Option JVal) : ℚ := numOrZero v

/-- `queryTotals` body: read `rows[0]` of a totals fetch, defaulting each
non-number field to 0 and rescaling the ctr. -/
def queryTotalsOfRows (rows : List RawGscRow) : GscTotals :=
  match rows.head? with
  | none => ⟨0, 0, 0, 0⟩
  | some row =>
    { clicks := rawNumOrZero row.clicks
      impressions := rawNumOrZero row.impressions
      ctr := match row.ctr with
        | some (.num q) => normalizeCtr q
        | _ => 0
      position := rawNumOrZero row.position }

/-- `queryRows`: fetch then normalize, dropping malformed rows. -/
def queryRowsOf (fetch : QueryPlan → List RawGscRow) (p : QueryPlan) :
    List NormalizedGscRow :=
  (fetch p).filterMap normalizeGscRow

/-- `queryTotals`: fetch the same plan with `rowLimit 1, startRow 0` and
aggregate its first row. -/
def queryTotalsOf (fetch : QueryPlan → List RawGscRow) (p : QueryPlan) : GscTotals :=
  queryTotalsOfRows (fetch { p with rowLimit := 1, startRow := 0 })

/-- The plan of a range-wide totals fetch. -/
def totalsPlan (range : GscRange) (f : FilterSel) : QueryPlan :=
  ⟨range.startDate, range.endDate, [], 1, 0, f⟩

/-- The plan of a dimensional rows fetch. -/
def rowsPlan (range : GscRange) (dims : List Dimension) (rowLimit : ℕ)
    (f : FilterSel) : QueryPlan :=
  ⟨range.startDate, range.endDate, dims, rowLimit, 0, f⟩

/-- Lexicographic composition of a numeric sort key (ascending) with a
tie-break relation; models a JavaScript comparator chain `a - b || tie`. -/
def lexLe {α : Type} (f : α → ℚ) (g : α → α → Prop) (a b : α) : Prop :=
  f a < f b ∨ (f a = f b ∧ g a b)

/-- Final tie-break on a string field (`localeCompare`, ascending). -/
def strFieldLe {α : Type} (f : α → String) (a b : α) : Prop :=
  strLe (f a) (f b) = true

instance {α : Type} (f : α → ℚ) (g : α → α → Prop) [DecidableRel g] :
    DecidableRel (lexLe f g) := fun a b => by
  unfold lexLe
  infer_instance

instance {α : Type} (f : α → String) : DecidableRel (strFieldLe f) := fun a b => by
  unfold strFieldLe
  infer_instance

/-- `deltaClicks asc, tie query asc` (TOP_LOSERS_*). -/
def deltaAscLe : DeltaRow → DeltaRow → Prop :=
  lexLe (fun r => r.deltaClicks) (strFieldLe DeltaRow.key)

/-- `deltaClicks desc, tie query asc` (TOP_WINNERS_*). -/
def deltaDescLe : DeltaRow → DeltaRow → Prop :=
  lexLe (fun r => -r.deltaClicks) (strFieldLe DeltaRow.key)

/-- `score desc, impressions desc, ctr asc, page asc`
(HIGH_IMPRESS_LOW_CTR_PAGES, score = impressionsCurrent*(1-ctrCurrent)). -/
def hiImprLowCtrLe : DeltaRow → DeltaRow → Prop :=
  lexLe (fun r => -(r.impressionsCurrent * (1 - r.ctrCurrent)))
    (lexLe (fun r => -r.impressionsCurrent)
      (lexLe (fun r => r.ctrCurrent) (strFieldLe DeltaRow.key)))

/-- `deltaClicks asc, deltaPosition desc, query asc`
(POSITION_UP_CLICKS_DOWN_QUERIES). -/
def posUpClicksDownLe : DeltaRow → DeltaRow → Prop :=
  lexLe (fun r => r.deltaClicks)
    (lexLe (fun r => -r.deltaPosition) (strFieldLe DeltaRow.key))

/-- `impressions desc, ctr asc, position asc, query asc`
(CTR_OPPORTUNITIES_QUERIES). -/
def ctrOppLe : DeltaRow → DeltaRow → Prop :=
  lexLe (fun r => -r.impressionsCurrent)
    (lexLe (fun r => r.ctrCurrent)
      (lexLe (fun r => r.positionCurrent) (strFieldLe DeltaRow.key)))

/-- `clicksCurrent desc, impressions desc, query asc`
(DRILLDOWN_PAGE_TO_QUERIES). -/
def drilldownLe : DeltaRow → DeltaRow → Prop :=
  lexLe (fun r => -r.clicksCurrent)
    (lexLe (fun r => -r.impressionsCurrent) (strFieldLe DeltaRow.key))

/-- `clicks desc, impressions desc, page asc` (page ranking inside a
cannibalization aggregate). -/
def cannPageLe : CannibalPage → CannibalPage → Prop :=
  lexLe (fun p => -p.clicks)
    (lexLe (fun p => -p.impressions) (strFieldLe CannibalPage.page))

/-- `totalClicks desc, concentration asc, query asc`
(CANNIBALIZATION_QUERIES output order). -/
def cannItemLe : CannibalItem → CannibalItem → Prop :=
  lexLe (fun it => -it.current.totalClicks)
    (lexLe (fun it => it.current.concentration) (strFieldLe CannibalItem.query))

instance : DecidableRel deltaAscLe := fun a b => by
  unfold deltaAscLe
  infer_instance

instance : DecidableRel deltaDescLe := fun a b => by
  unfold deltaDescLe
  infer_instance

instance : DecidableRel hiImprLowCtrLe := fun a b => by
  unfold hiImprLowCtrLe
  infer_instance

instance : DecidableRel posUpClicksDownLe := fun a b => by
  unfold posUpClicksDownLe
  infer_instance

instance : DecidableRel ctrOppLe := fun a b => by
  unfold ctrOppLe
  infer_instance

instance : DecidableRel drilldownLe := fun a b => by
  unfold drilldownLe
  infer_instance

instance : DecidableRel cannPageLe := fun a b => by
  unfold cannPageLe
  infer_instance

instance : DecidableRel cannItemLe := fun a b => by
  unfold cannItemLe
  infer_instance

/-- `r.keys[0] ?? ""` read as the query of a (query, page) row. -/
def cannQuery (r : NormalizedGscRow) : String := r.keys.headD ""

/-- `r.keys[1] ?? ""` read as the page of a (query, page) row. -/
def cannPage (r : NormalizedGscRow) : String := (r.keys.drop 1).headD ""

/-- `if (!query || !page) continue`. -/
def cannRowOk (r : NormalizedGscRow) : Prop := cannQuery r ≠ "" ∧ cannPage r ≠ ""

instance (r : NormalizedGscRow) : Decidable (cannRowOk r) := by
  unfold cannRowOk
  infer_instance

/-- The per-query page list of the `byQuery` map, in row order. -/
def pagesFor (rows : List NormalizedGscRow) (q : String) : List CannibalPage :=
  ((rows.filter (fun r => decide (cannRowOk r))).filter (fun r => cannQuery r == q)).map
    (fun r => ⟨cannPage r, r.clicks, r.impressions, r.ctr, r.position⟩)

/-- The key list of the `byQuery` map (distinct, first-occurrence order). -/
def cannQueryList (rows : List NormalizedGscRow) : List String :=
  insertionDedup ((rows.filter (fun r => decide (cannRowOk r))).map cannQuery)

/-- `toAgg` from the cannibalization branch: rank pages, total the clicks
and impressions, and compute the concentration of the largest page. -/
def toAgg (pages : List CannibalPage) : CannibalAgg :=
  let sorted := List.insertionSort cannPageLe pages
  let totalClicks := (sorted.map CannibalPage.clicks).sum
  let totalImpressions := (sorted.map CannibalPage.impressions).sum
  let concentration :=
    if 0 < totalClicks then (sorted.head?.elim 0 CannibalPage.clicks) / totalClicks else 1
  ⟨sorted.length, totalClicks, totalImpressions, concentration, sorted.take 5⟩

/-- One candidate output item of the cannibalization analysis. -/
def mkCannibalItem (currRows prevRows : List NormalizedGscRow) (q : String) :
    CannibalItem :=
  let curr := toAgg (pagesFor currRows q)
  let prev := toAgg (pagesFor prevRows q)
  ⟨q, curr, prev, curr.totalClicks - prev.totalClicks,
    curr.totalImpressions - prev.totalImpressions,
    curr.concentration - prev.concentration⟩

/-- The filter of the cannibalization analysis:
`pageCount >= 2 && totalClicks > 0 && concentration < 0.8`. -/
def cannKeep (x : CannibalItem) : Prop :=
  2 ≤ x.current.pageCount ∧ 0 < x.current.totalClicks ∧
    x.current.concentration < 4 / 5

instance (x : CannibalItem) : Decidable (cannKeep x) := by
  unfold cannKeep
  infer_instance

/-- The full cannibalization pipeline over normalized (query, page) rows:
aggregate per query, filter, and rank. -/
def cannibalizationItems (currRows prevRows : List NormalizedGscRow) :
    List CannibalItem :=
  let queries := insertionDedup (cannQueryList currRows ++ cannQueryList prevRows)
  let out := (queries.map (mkCannibalItem currRows prevRows)).filter
    (fun x => decide (cannKeep x))
  List.insertionSort cannItemLe out

/-- The common fields of every result a branch returns. -/
def mkResult (args : ToolArgs) (preset : Preset) (rowLimit : ℕ)
    (current previous : GscRange) (tc tp : GscTotals) (kind : V2Kind)
    (items : V2Items) (ctxPage : Option String)
    (ctxBrand : Option (List String)) : V2IntentResult :=
  ⟨args.intent, preset, rowLimit, current, previous, tc, tp, kind, items,
    ctxPage, ctxBrand⟩

/-- `items.length === 0` test of the computed collection. -/
def V2Items.isEmptyColl : V2Items → Bool
  | .queryRows rows => rows.isEmpty
  | .pageRows rows => rows.isEmpty
  | .cannibal rows => rows.isEmpty
  | .brand _ => false

/-- The `if (items.length === 0) return { kind: "empty", items: [] }`
pattern shared by every list-shaped branch. -/
def shapeResult (args : ToolArgs) (preset : Preset) (rowLimit : ℕ)
    (current previous : GscRange) (tc tp : GscTotals) (kindK : V2Kind)
    (items : V2Items) (ctxPage : Option String) : V2IntentResult :=
  if items.isEmptyColl then
    mkResult args preset rowLimit current previous tc tp .empty (.queryRows []) ctxPage none
  else
    mkResult args preset rowLimit current previous tc tp kindK items ctxPage none

/-- `runIntent` core: dispatches one validated intent into fetches, a merge,
intent-specific filtering/sorting, and a typed outcome.  Throwing paths
(`BRAND_VS_NONBRAND` without brand terms, drilldown without a page URL)
return `Except.error` with the source's message. -/
def runIntent (fetch : QueryPlan → List RawGscRow) (args : ToolArgs)
    (preset : Preset) (current previous : GscRange) :
    Except String V2IntentResult :=
  let rowLimit := args.rowLimit
  let totalsCurrent := queryTotalsOf fetch (totalsPlan current .noFilter)
  let totalsPrevious := queryTotalsOf fetch (totalsPlan previous .noFilter)
  match args.intent with
  | .TOP_WINNERS_QUERIES =>
    let currRows := queryRowsOf fetch (rowsPlan current [.query] rowLimit .noFilter)
    let prevRows := queryRowsOf fetch (rowsPlan previous [.query] rowLimit .noFilter)
    let merged := List.insertionSort deltaDescLe (mergeDeltas currRows prevRows)
    .ok (shapeResult args preset rowLimit current previous totalsCurrent totalsPrevious
      .query_deltas (.queryRows (merged.take rowLimit)) none)
  | .TOP_LOSERS_QUERIES =>
    let currRows := queryRowsOf fetch (rowsPlan current [.query] rowLimit .noFilter)
    let prevRows := queryRowsOf fetch (rowsPlan previous [.query] rowLimit .noFilter)
    let merged := List.insertionSort deltaAscLe (mergeDeltas currRows prevRows)
    .ok (shapeResult args preset rowLimit current previous totalsCurrent totalsPrevious
      .query_deltas (.queryRows (merged.take rowLimit)) none)
  | .TOP_WINNERS_PAGES =>
    let currRows := queryRowsOf fetch (rowsPlan current [.page] rowLimit .noFilter)
    let prevRows := queryRowsOf fetch (rowsPlan previous [.page] rowLimit .noFilter)
    let merged := List.insertionSort deltaDescLe (mergeDeltas currRows prevRows)
    .ok (shapeResult args preset rowLimit current previous totalsCurrent totalsPrevious
      .page_deltas (.pageRows (merged.take rowLimit)) none)
  | .TOP_LOSERS_PAGES =>
    let currRows := queryRowsOf fetch (rowsPlan current [.page] rowLimit .noFilter)
    let prevRows := queryRowsOf fetch (rowsPlan previous [.page] rowLimit .noFilter)
    let merged := List.insertionSort deltaAscLe (mergeDeltas currRows prevRows)
    .ok (shapeResult args preset rowLimit current previous totalsCurrent totalsPrevious
      .page_deltas (.pageRows (merged.take rowLimit)) none)
  | .HIGH_IMPRESS_LOW_CTR_PAGES =>
    let currRows := queryRowsOf fetch (rowsPlan current [.page] rowLimit .noFilter)
    let prevRows := queryRowsOf fetch (rowsPlan previous [.page] rowLimit .noFilter)
    let merged := List.insertionSort hiImprLowCtrLe (mergeDeltas currRows prevRows)
    .ok (shapeResult args preset rowLimit current previous totalsCurrent totalsPrevious
      .page_deltas (.pageRows (merged.take rowLimit)) none)
  | .POSITION_UP_CLICKS_DOWN_QUERIES =>
    let currRows := queryRowsOf fetch (rowsPlan current [.query] rowLimit .noFilter)
    let prevRows := queryRowsOf fetch (rowsPlan previous [.query] rowLimit .noFilter)
    let filtered := (mergeDeltas currRows prevRows).filter
      (fun r => decide (r.deltaClicks < 0) && decide (0 < r.deltaPosition))
    let merged := List.insertionSort posUpClicksDownLe filtered
    .ok (shapeResult args preset rowLimit current previous totalsCurrent totalsPrevious
      .query_deltas (.queryRows (merged.take rowLimit)) none)
  | .CTR_OPPORTUNITIES_QUERIES =>
    let currRows := queryRowsOf fetch (rowsPlan current [.query] rowLimit .noFilter)
    let prevRows := queryRowsOf fetch (rowsPlan previous [.query] rowLimit .noFilter)
    let filtered := (mergeDeltas currRows prevRows).filter
      (fun r => decide (100 ≤ r.impressionsCurrent) && decide (0 < r.positionCurrent) &&
        decide (r.positionCurrent ≤ 10) && decide (r.ctrCurrent ≤ 3 / 100))
    let merged := List.insertionSort ctrOppLe filtered
    .ok (shapeResult args preset rowLimit current previous totalsCurrent totalsPrevious
      .query_deltas (.queryRows (merged.take rowLimit)) none)
  | .BRAND_VS_NONBRAND =>
    let brandTerms := (args.brandTerms.map jsTrim).filter (fun t => t ≠ "")
    if brandTerms.isEmpty then
      .error "BRAND_VS_NONBRAND requires brandTerms (string[])."
    else
      let brandF := FilterSel.brandContainsAny brandTerms
      let nonBrandF := FilterSel.brandContainsNone brandTerms
      let topLimit := min rowLimit 250
      let brandCurrentTotals := queryTotalsOf fetch (totalsPlan current brandF)
      let brandPreviousTotals := queryTotalsOf fetch (totalsPlan previous brandF)
      let nonBrandCurrentTotals := queryTotalsOf fetch (totalsPlan current nonBrandF)
      let nonBrandPreviousTotals := queryTotalsOf fetch (totalsPlan previous nonBrandF)
      let brandCurrentTop := queryRowsOf fetch (rowsPlan current [.query] topLimit brandF)
      let brandPreviousTop := queryRowsOf fetch (rowsPlan previous [.query] topLimit brandF)
      let nonBrandCurrentTop := queryRowsOf fetch (rowsPlan current [.query] topLimit nonBrandF)
      let nonBrandPreviousTop := queryRowsOf fetch (rowsPlan previous [.query] topLimit nonBrandF)
      let brandMerged := (mergeDeltas brandCurrentTop brandPreviousTop).take topLimit
      let nonBrandMerged := (mergeDeltas nonBrandCurrentTop nonBrandPreviousTop).take topLimit
      .ok (mkResult args preset rowLimit current previous totalsCurrent totalsPrevious
        .brand_vs_nonbrand
        (.brand ⟨brandTerms,
          ⟨brandCurrentTotals, brandPreviousTotals, brandMerged⟩,
          ⟨nonBrandCurrentTotals, nonBrandPreviousTotals, nonBrandMerged⟩⟩)
        none (some brandTerms))
  | .CANNIBALIZATION_QUERIES =>
    let currRows := queryRowsOf fetch (rowsPlan current [.query, .page] rowLimit .noFilter)
    let prevRows := queryRowsOf fetch (rowsPlan previous [.query, .page] rowLimit .noFilter)
    let out := cannibalizationItems currRows prevRows
    .ok (shapeResult args preset rowLimit current previous totalsCurrent totalsPrevious
      .query_page_cannibalization (.cannibal (out.take rowLimit)) none)
  | .DRILLDOWN_PAGE_TO_QUERIES =>
    let pageUrl := jsTrim (args.pageUrl.getD "")
    if pageUrl = "" then
      .error "DRILLDOWN_PAGE_TO_QUERIES requires pageUrl."
    else
      let filt := FilterSel.pageEquals pageUrl
      let currTotals := queryTotalsOf fetch (totalsPlan current filt)
      let prevTotals := queryTotalsOf fetch (totalsPlan previous filt)
      let currRows := queryRowsOf fetch (rowsPlan current [.query] rowLimit filt)
      let prevRows := queryRowsOf fetch (rowsPlan previous [.query] rowLimit filt)
      let merged := List.insertionSort drilldownLe (mergeDeltas currRows prevRows)
      .ok (shapeResult args preset rowLimit current previous currTotals prevTotals
        .page_drilldown (.queryRows (merged.take rowLimit)) (some pageUrl))

/-! ### Insight synthesizer (`buildV2Answer` and helpers in src/lib) -/

/-- Action priorities. -/
inductive V2Priority where
  | high
  | med
  | low
deriving DecidableEq, Repr

/-- The string value of a priority. -/
def priorityLabel : V2Priority → String
  | .high => "High impact"
  | .med => "Medium impact"
  | .low => "Low impact"

/-- Confidence levels. -/
inductive V2ConfidenceLevel where
  | High
  | Medium
  | Low
deriving DecidableEq, Repr

/-- The string value of a confidence level. -/
def confidenceLabel : V2ConfidenceLevel → String
  | .High => "High"
  | .Medium => "Medium"
  | .Low => "Low"

/-- One recommended action. -/
structure V2Action where
  step : String
  priority : V2Priority
deriving DecidableEq, Repr

/-- A confidence rating with its fixed explanatory sentence. -/
structure V2Confidence where
  level : V2ConfidenceLevel
  reason : String
deriving DecidableEq, Repr

/-- The structured answer (`V2Answer`); the debug fields model the always-
present `debug` object. -/
structure V2Answer where
  summary : String
  keyFindings : List String
  likelyCauses : List String
  recommendedActions : List V2Action
  whatStandsOut : String
  confidence : V2Confidence
  debugComparisons : List String
  debugMicroInsights : List String
deriving DecidableEq, Repr

/-- The data handed from the route to the synthesizer. -/
structure V2GscData where
  siteUrl : String
  preset : Preset
  results : List V2IntentResult
deriving DecidableEq, Repr

/-- `Math.round` (half away from zero toward positive infinity). -/
def jsRound (q : ℚ) : ℤ := ⌊q + 1 / 2⌋

/-- `round(n, digits)` from the source: `Math.round(n * 10^d) / 10^d`. -/
def roundTo (q : ℚ) (digits : ℕ) : ℚ :=
  ((jsRound (q * (10 : ℚ) ^ digits) : ℤ) : ℚ) / (10 : ℚ) ^ digits

/-- Left-pad a digit string with zeros to a given width. -/
def padZeros (s : String) (width : ℕ) : String :=
  String.mk (List.replicate (width - s.length) '0') ++ s

/-- Auxiliary for `decimalString`: drop trailing zero decimals. -/
def stripZeros : ℤ → ℕ → ℤ × ℕ
  | m, 0 => (m, 0)
  | m, d + 1 => if m % 10 = 0 then stripZeros (m / 10) d else (m, d + 1)

/-- JavaScript number-to-string conversion for a value produced by
`round(_, digits)` (an exact multiple of `10^-digits`): decimal notation
with trailing zero decimals dropped, as the shortest round-trip printing
yields for these values. -/
def decimalString (q : ℚ) (digits : ℕ) : String :=
  let scaled := ⌊q * (10 : ℚ) ^ digits⌋
  let p := stripZeros scaled digits
  if p.2 = 0 then toString p.1
  else
    let a := p.1.natAbs
    (if p.1 < 0 then "-" else "") ++ toString (a / 10 ^ p.2) ++ "." ++
      padZeros (toString (a % 10 ^ p.2)) p.2

/-- `${round(q, digits)}` as a string. -/
def fmtRound (q : ℚ) (digits : ℕ) : String := decimalString (roundTo q digits) digits

/-- Digit grouping of `toLocaleString("en-US")`, processing the reversed
digit list. -/
def groupThousands : List Char → List Char
  | a :: b :: c :: d :: rest => a :: b :: c :: ',' :: groupThousands (d :: rest)
  | l => l

/-- `formatInt`: `Math.round(n).toLocaleString("en-US")`. -/
def formatInt (n : ℚ) : String :=
  let r := jsRound n
  (if r < 0 then "-" else "") ++
    String.mk ((groupThousands (toString r.natAbs).data.reverse).reverse)

/-- `formatCtr`: ctr decimal to a percentage string. -/
def formatCtr (ctrDecimal : ℚ) : String := fmtRound (ctrDecimal * 100) 1 ++ "%"

/-- `formatSignedPct`: signed percentage string with an explicit plus. -/
def formatSignedPct (pctDecimal : ℚ) : String :=
  let pct := roundTo (pctDecimal * 100) 1
  (if 0 < pct then "+" else "") ++ decimalString pct 1 ++ "%"

/-- `safeDiv`: division defaulting to 0 on a zero denominator. -/
def safeDiv (num den : ℚ) : ℚ := if den = 0 then 0 else num / den

/-- `pctChange`: `(current - previous) / max(previous, 1)`. -/
def pctChange (current previous : ℚ) : ℚ :=
  safeDiv (current - previous) (max previous 1)

/-- `positionDelta`: positive means the position improved. -/
def positionDelta (previous current : ℚ) : ℚ := previous - current

/-- The four derived signals of a totals comparison. -/
structure TotalsDelta where
  clicksPct : ℚ
  impressionsPct : ℚ
  ctrAbs : ℚ
  positionImprovement : ℚ
deriving DecidableEq, Repr

/-- `computeTotalsDelta`. -/
def computeTotalsDelta (current previous : GscTotals) : TotalsDelta :=
  { clicksPct := pctChange current.clicks previous.clicks
    impressionsPct := pctChange current.impressions previous.impressions
    ctrAbs := current.ctr - previous.ctr
    positionImprovement := positionDelta previous.position current.position }

/-- Char-level scan of `firstSentence`: cut after the first `[.!?]`
followed by whitespace. -/
def firstSentenceCore : List Char → List Char
  | [] => []
  | [c] => [c]
  | c :: d :: rest =>
    if (c == '.' || c == '!' || c == '?') && d.isWhitespace then [c]
    else c :: firstSentenceCore (d :: rest)

/-- `firstSentence` from the source. -/
def firstSentence (text : String) : String :=
  let trimmed := jsTrim text
  jsTrim (String.mk (firstSentenceCore trimmed.data))

/-- `ensureBetween`: pad with a filler up to `lo`, truncate at `hi`. -/
def ensureBetween {α : Type} (items : List α) (lo hi : ℕ) (filler : α) : List α :=
  (items ++ List.replicate (lo - items.length) filler).take hi

/-- `chooseConfidence` from the source. -/
def chooseConfidence (hasData : Bool) (currentImpressions previousImpressions : ℚ)
    (itemsCount : ℕ) : V2Confidence :=
  if !hasData || itemsCount == 0 then
    ⟨.Low, "No (or too little) Search Console data was returned for the selected ranges."⟩
  else
    let minImpr := min currentImpressions previousImpressions
    if 5000 ≤ minImpr then
      ⟨.High, "The comparison is based on substantial impression volume across both periods."⟩
    else if 500 ≤ minImpr then
      ⟨.Medium, "There’s enough volume to see directionally useful trends, but smaller moves may be noisy."⟩
    else
      ⟨.Low, "Low impression volume makes the deltas volatile and harder to interpret confidently."⟩

/-- `describeIntent` (with `undefined` mapped to the default label). -/
def describeIntent : Option Intent → String
  | some .TOP_WINNERS_QUERIES => "top winning queries"
  | some .TOP_LOSERS_QUERIES => "top losing queries"
  | some .TOP_WINNERS_PAGES => "top winning pages"
  | some .TOP_LOSERS_PAGES => "top losing pages"
  | some .HIGH_IMPRESS_LOW_CTR_PAGES => "high-impression, low-CTR pages"
  | some .POSITION_UP_CLICKS_DOWN_QUERIES => "queries where position improved but clicks fell"
  | some .CTR_OPPORTUNITIES_QUERIES => "CTR opportunity queries"
  | some .BRAND_VS_NONBRAND => "brand vs non-brand performance"
  | some .CANNIBALIZATION_QUERIES => "potential cannibalization queries"
  | some .DRILLDOWN_PAGE_TO_QUERIES => "page-level query drilldown"
  | none => "Search Console performance"

/-- The dynamic view of one array item as `buildV2Answer` reads it
(`query`/`page`/`deltaClicks`/`current.pageCount` field accesses). -/
structure ItemFace where
  query : Option String
  page : Option String
  deltaClicks : Option ℚ
  currentPageCount : Option ℕ
deriving DecidableEq, Repr

/-- View of a query-keyed delta row. -/
def DeltaRow.queryFace (r : DeltaRow) : ItemFace :=
  ⟨some r.key, none, some r.deltaClicks, none⟩

/-- View of a page-keyed delta row. -/
def DeltaRow.pageFace (r : DeltaRow) : ItemFace :=
  ⟨none, some r.key, some r.deltaClicks, none⟩

/-- View of a cannibalization item. -/
def CannibalItem.face (it : CannibalItem) : ItemFace :=
  ⟨some it.query, none, some it.deltaClicks, some it.current.pageCount⟩

/-- `Array.isArray(items)` view: `some` with the element faces for the
array-shaped items, `none` for the brand structure. -/
def V2Items.faces : V2Items → Option (List ItemFace)
  | .queryRows rows => some (rows.map DeltaRow.queryFace)
  | .pageRows rows => some (rows.map DeltaRow.pageFace)
  | .cannibal rows => some (rows.map CannibalItem.face)
  | .brand _ => none

/-- The example pick handed to the action builder. -/
structure ExamplePick where
  query : Option String
  pageUrl : Option String
deriving DecidableEq, Repr

/-- The kind-keyed reads of `pickExampleFromResults` for one result. -/
def pickFromResultKind (r : V2IntentResult) : Option ExamplePick :=
  if r.kind = .query_deltas ∨ r.kind = .query_list ∨ r.kind = .page_drilldown then
    match r.items with
    | .queryRows rows =>
      rows.head?.bind fun it =>
        if jsTrim it.key ≠ "" then some ⟨some (jsTrim it.key), none⟩ else none
    | _ => none
  else if r.kind = .page_deltas ∨ r.kind = .page_list then
    match r.items with
    | .pageRows rows =>
      rows.head?.bind fun it =>
        if jsTrim it.key ≠ "" then some ⟨none, some (jsTrim it.key)⟩ else none
    | _ => none
  else if r.kind = .query_page_cannibalization then
    match r.items with
    | .cannibal rows =>
      -- the source reads `items[0]?.topPages?.[0]?.page`, but a
      -- cannibalization item has no top-level `topPages` field, so the
      -- page is always `undefined` here
      rows.head?.bind fun it =>
        if jsTrim it.query ≠ "" then some ⟨some (jsTrim it.query), none⟩ else none
    | _ => none
  else if r.kind = .brand_vs_nonbrand then
    match r.items with
    | .brand b =>
      let q := (b.nonBrand.topQueries.head?.map DeltaRow.key).orElse
        (fun _ => b.brand.topQueries.head?.map DeltaRow.key)
      q.bind fun s => if jsTrim s ≠ "" then some ⟨some (jsTrim s), none⟩ else none
    | _ => none
  else none

/-- One iteration of the `pickExampleFromResults` loop. -/
def pickFromResult (r : V2IntentResult) : Option ExamplePick :=
  match r.contextPageUrl with
  | some u => if u ≠ "" then some ⟨none, some u⟩ else pickFromResultKind r
  | none => pickFromResultKind r

/-- `pickExampleFromResults`: the first result that yields an example. -/
def pickExampleFromResults (results : List V2IntentResult) : ExamplePick :=
  ((results.filterMap pickFromResult).head?).getD ⟨none, none⟩

/-- `deriveMicroInsights`, totals-delta part: the fixed rule table with its
thresholds, in source order. -/
def microFromDelta (d : TotalsDelta) : List String :=
  let l1 :=
    if 3 / 10 < d.positionImprovement ∧ d.clicksPct < -(1 / 20) then
      ["Average position improved, but clicks fell — that often points to lower CTR or reduced demand."]
    else []
  let l2 := l1 ++
    (if 1 / 20 < d.impressionsPct ∧ d.ctrAbs < -(1 / 500) then
      ["Impressions rose while CTR fell — increased visibility with weaker snippet/intent match can depress clicks."]
    else [])
  let l3 := l2 ++
    (if l2.length < 2 ∧ d.impressionsPct < -(1 / 20) ∧ 0 ≤ d.positionImprovement then
      ["Visibility dropped (impressions down) even though average position didn’t worsen — demand/seasonality or coverage changes may be at play."]
    else [])
  l3 ++
    (if l3.length < 2 ∧ 1 / 20 < d.clicksPct ∧ 1 / 500 < d.ctrAbs then
      ["Clicks grew alongside CTR — improvements are likely coming from snippet relevance or better alignment with search intent."]
    else [])

/-- `deriveMicroInsights` (the `intent` input is unused in the source). -/
def deriveMicroInsights (totalsDelta : Option TotalsDelta)
    (results : List V2IntentResult) : List String :=
  let base := totalsDelta.elim [] microFromDelta
  let hasCannibal := results.any fun r =>
    decide (r.kind = .query_page_cannibalization) &&
      (match r.items.faces with
        | some l => !l.isEmpty
        | none => false)
  let withCann := base ++
    (if hasCannibal ∧ base.length < 3 then
      ["Potential cannibalization is present: the same query is earning clicks across multiple pages."]
    else [])
  let hasBrand := results.any fun r => decide (r.kind = .brand_vs_nonbrand)
  let withBrand := withCann ++
    (if hasBrand ∧ withCann.length < 3 then
      ["Brand and non-brand performance can move in opposite directions; treat them as separate funnels when diagnosing changes."]
    else [])
  let final := withBrand ++
    (if totalsDelta.isSome ∧ withBrand.length < 2 then
      ["Most performance shifts tend to concentrate in a small set of queries/pages; focus on the top movers first.",
       "Small CTR changes can have outsized click impact when impressions are large — prioritize high-impression items."]
    else [])
  final.take 3

/-- `buildRecommendedActions` from the source. -/
def buildRecommendedActions (intentOpt : Option Intent) (exPick : ExamplePick)
    (totalsDelta : Option TotalsDelta) (hasData : Bool) (siteUrl : String) :
    List V2Action :=
  let quoted := exPick.query.map fun q => "\"" ++ q ++ "\""
  let page := exPick.pageUrl
  let clicksDown := (totalsDelta.elim 0 TotalsDelta.clicksPct) < -(1 / 10)
  let clicksUp := 1 / 10 < (totalsDelta.elim 0 TotalsDelta.clicksPct)
  let action1Target :=
    match page, quoted with
    | some p, some q => "for " ++ p ++ " (focused on " ++ q ++ ")"
    | some p, none => "for " ++ p
    | none, some q => "for " ++ q
    | none, none => "for the top affected queries/pages"
  let base : List V2Action :=
    [⟨"Validate the main landing page and snippet alignment " ++ action1Target ++
        ": review title/meta, intent match, and whether the page answers the query clearly.",
      if clicksDown then .high else .med⟩,
     ⟨"Inspect SERP changes and competitors for the biggest movers (features, intent shift, new entrants), then update content depth and internal linking to defend/expand rankings.",
      if clicksDown then .high else .med⟩,
     ⟨"Improve CTR on high-impression items: test more specific titles, add value props, and align on-brand messaging; prioritize items with large impressions where small CTR gains matter.",
      .med⟩,
     ⟨"Check technical and coverage basics for the affected URLs (indexing, canonical, redirects, structured data where relevant) to ensure changes aren’t caused by crawl/index issues.",
      if clicksDown then .med else .low⟩]
  if !hasData then
    [⟨"Confirm you selected the correct Search Console property (" ++ siteUrl ++
        ") and that the date range contains data.", .med⟩,
     ⟨"Ask a more specific question (e.g., “winning queries” or a specific page URL) to narrow the analysis.", .med⟩,
     ⟨"If you expect data but see none, verify the property is verified and that you have sufficient permissions.", .low⟩]
  else
    let withCann :=
      if intentOpt = some .CANNIBALIZATION_QUERIES then
        ⟨"For the top cannibalized query " ++ quoted.getD "" ++
          ", consolidate overlapping pages (merge content or differentiate intent) and apply canonical/redirects where appropriate to reduce dilution.",
         V2Priority.high⟩ :: base
      else base
    let withDrill :=
      match intentOpt, page with
      | some .DRILLDOWN_PAGE_TO_QUERIES, some p =>
        ⟨"On " ++ p ++
          ", prioritize on-page sections and internal links that directly address the highest-impression queries (starting with " ++
          quoted.getD "the top query" ++ ") to capture more clicks.",
         V2Priority.high⟩ :: withCann
      | _, _ => withCann
    let withUp :=
      if clicksUp then
        ⟨"Double down on what’s working: expand content and add internal links around the biggest winners to sustain momentum (start with " ++
          quoted.getD "the top winner" ++ ").",
         V2Priority.high⟩ :: withDrill
      else withDrill
    ensureBetween withUp 3 7
      ⟨"Re-check the top movers after changes (same ranges) to confirm the direction improves.", .low⟩

instance (r : V2IntentResult) : Decidable (r.kind ≠ V2Kind.empty) := by
  infer_instance

/-- `primary`: the first non-empty result, else the first result. -/
def primaryResult (results : List V2IntentResult) : Option V2IntentResult :=
  (results.find? fun r => decide (r.kind ≠ .empty)).orElse fun _ => results.head?

/-- Index of the primary result (for the identity-based skip in the
secondary-findings loop). -/
def primaryIdx (results : List V2IntentResult) : Option ℕ :=
  match results.findIdx? (fun r => decide (r.kind ≠ .empty)) with
  | some i => some i
  | none => if results.isEmpty then none else some 0

/-- Secondary findings of one non-primary result. -/
def additionalFindingOf (r : V2IntentResult) : List String :=
  if r.kind = .brand_vs_nonbrand then
    ["Brand vs non-brand was also analyzed; if they diverge, prioritize non-brand fixes first because they usually drive net-new demand."]
  else if r.kind = .query_page_cannibalization then
    match r.items.faces with
    | some faces =>
      match faces.head? with
      | some first =>
        match first.query with
        | some q =>
          ["Potential cannibalization signal: query \"" ++ q ++ "\" is spread across " ++
            toString (first.currentPageCount.getD 2) ++ " pages."]
        | none => []
      | none => []
    | none => []
  else
    match r.items.faces with
    | some faces =>
      match faces.head? with
      | some first =>
        match first.query with
        | some q =>
          ["Also notable: \"" ++ q ++ "\" is a top mover (" ++
            (match first.deltaClicks with
              | some dc => (if 0 ≤ dc then "+" else "") ++ fmtRound dc 0 ++ " clicks vs previous"
              | none => "not enough data for a delta") ++ ")."]
        | none =>
          match first.page with
          | some p =>
            ["Also notable: " ++ p ++ " is a top mover (" ++
              (match first.deltaClicks with
                | some dc => (if 0 ≤ dc then "+" else "") ++ fmtRound dc 0 ++ " clicks vs previous"
                | none => "not enough data for a delta") ++ ")."]
          | none => []
      | none => []
    | none => []

/-- The secondary-findings loop: skip the primary, stop at two findings. -/
def additionalFindingsAux (pIdx : ℕ) : ℕ → List V2IntentResult → List String → List String
  | _, [], acc => acc
  | i, r :: rest, acc =>
    if 2 ≤ acc.length then acc
    else if i = pIdx then additionalFindingsAux pIdx (i + 1) rest acc
    else additionalFindingsAux pIdx (i + 1) rest (acc ++ additionalFindingOf r)

/-- All secondary findings of a result list. -/
def additionalFindings (results : List V2IntentResult) : List String :=
  match primaryIdx results with
  | some i => additionalFindingsAux i 0 results []
  | none => []

/-- `itemsCount`: total length of the array-shaped item collections. -/
def itemsCountOf (results : List V2IntentResult) : ℕ :=
  results.foldl
    (fun acc r =>
      match r.items.faces with
      | some l => acc + l.length
      | none => acc)
    0

/-- The four headline findings about range totals. -/
def totalsFindings (c p : GscTotals) : List String :=
  let d := computeTotalsDelta c p
  ["Clicks " ++ formatSignedPct d.clicksPct ++ " vs previous (" ++ formatInt p.clicks ++
     " → " ++ formatInt c.clicks ++ ").",
   "Impressions " ++ formatSignedPct d.impressionsPct ++ " vs previous (" ++
     formatInt p.impressions ++ " → " ++ formatInt c.impressions ++ ").",
   "CTR changed by " ++ fmtRound (d.ctrAbs * 100) 1 ++ "pp (" ++ formatCtr p.ctr ++
     " → " ++ formatCtr c.ctr ++ ").",
   "Average position " ++ (if 0 ≤ d.positionImprovement then "improved" else "worsened") ++
     " by " ++ fmtRound |d.positionImprovement| 2 ++ " (" ++ fmtRound p.position 2 ++
     " → " ++ fmtRound c.position 2 ++ ")."]

/-- The four headline findings of the brand-vs-non-brand shape. -/
def brandFindings (b : BrandItems) : List String :=
  let bc := b.brand.totalsCurrent
  let bp := b.brand.totalsPrevious
  let nc := b.nonBrand.totalsCurrent
  let np := b.nonBrand.totalsPrevious
  ["Brand clicks " ++ formatSignedPct (pctChange bc.clicks bp.clicks) ++ " vs previous (" ++
     formatInt bp.clicks ++ " → " ++ formatInt bc.clicks ++ ").",
   "Non-brand clicks " ++ formatSignedPct (pctChange nc.clicks np.clicks) ++ " vs previous (" ++
     formatInt np.clicks ++ " → " ++ formatInt nc.clicks ++ ").",
   "Brand CTR changed by " ++ fmtRound ((bc.ctr - bp.ctr) * 100) 1 ++ "pp (" ++
     formatCtr bp.ctr ++ " → " ++ formatCtr bc.ctr ++ ").",
   "Non-brand CTR changed by " ++ fmtRound ((nc.ctr - np.ctr) * 100) 1 ++ "pp (" ++
     formatCtr np.ctr ++ " → " ++ formatCtr nc.ctr ++ ")."]

/-- The four no-data findings. -/
def noDataFindings (siteUrl : String) (c p : GscRange) : List String :=
  ["No rows were returned for " ++ siteUrl ++ " in " ++ c.startDate ++ " to " ++ c.endDate ++
     " (and the previous period " ++ p.startDate ++ " to " ++ p.endDate ++ ").",
   "This usually means very low search volume, a newly verified property, or a mismatch between the selected property and the site being searched.",
   "If you expected data, double-check the property type (Domain vs URL-prefix) and verify it matches your canonical site URLs.",
   "If you asked about a specific page, confirm the exact URL (http/https, trailing slash) matches what GSC reports."]

/-- The single top-mover finding (or the example-based fallback). -/
def topMoverFinding (primary : Option V2IntentResult) (exPick : ExamplePick) :
    List String :=
  let fallback :=
    match exPick.query with
    | some q =>
      ["A concrete starting point is the query \"" ++ q ++ "\", since small CTR improvements can compound quickly."]
    | none =>
      match exPick.pageUrl with
      | some p =>
        ["A concrete starting point is the page " ++ p ++ ", since it anchors the most relevant changes here."]
      | none => []
  match primary with
  | some pr =>
    match pr.items.faces with
    | some faces =>
      match faces.head? with
      | some first =>
        match first.query with
        | some q =>
          ["Top focus query: \"" ++ q ++ "\"" ++
            (match first.deltaClicks with
              | some dc => " (" ++ (if 0 ≤ dc then "+" else "") ++ fmtRound dc 0 ++ " clicks vs previous)"
              | none => "") ++ "."]
        | none =>
          match first.page with
          | some p =>
            ["Top focus page: " ++ p ++
              (match first.deltaClicks with
                | some dc => " (" ++ (if 0 ≤ dc then "+" else "") ++ fmtRound dc 0 ++ " clicks vs previous)"
                | none => "") ++ "."]
          | none => fallback
      | none => fallback
    | none => fallback
  | none => fallback

/-- The likely-causes list before padding. -/
def likelyCausesBase (hasData : Bool) (rangesKnown : Bool)
    (totalsDelta : Option TotalsDelta) (intentOpt : Option Intent) : List String :=
  let l1 :=
    if !hasData ∧ rangesKnown then
      ["The property may be correct but search demand is too low in these windows to produce rows (especially for smaller sites or narrow page filters).",
       "The selected property might not match the live canonical URLs (Domain vs URL-prefix mismatch, http/https mismatch, trailing slash differences).",
       "If filters were applied (brand terms or page URL), they may be too strict or not matching how queries/pages appear in GSC."]
    else []
  let l2 := l1 ++
    (match totalsDelta with
      | some d =>
        if hasData then
          (if 1 / 20 < d.impressionsPct ∧ d.ctrAbs < -(1 / 500) then
            ["Snippet/intent mismatch: more impressions are coming from broader queries where the listing is less compelling."]
          else []) ++
          (if 3 / 10 < d.positionImprovement ∧ d.clicksPct < -(1 / 20) then
            ["SERP layout changes (features/ads) or lower brand demand can reduce clicks even when ranking improves."]
          else []) ++
          (if d.impressionsPct < -(1 / 20) then
            ["Demand/seasonality shifts or reduced query coverage (indexing/crawl/canonical changes) can pull impressions down."]
          else [])
        else []
      | none => [])
  let l3 := l2 ++
    (if intentOpt = some .CANNIBALIZATION_QUERIES then
      ["Overlapping pages compete for the same intent, splitting clicks across URLs and weakening the strongest page signal."]
    else [])
  let l4 := l3 ++
    (if intentOpt = some .BRAND_VS_NONBRAND then
      ["Brand and non-brand behave differently: non-brand is more sensitive to competitors and SERP features, while brand depends on awareness and navigational intent."]
    else [])
  l4 ++ ["Measurement caveat: low-volume queries/pages can swing sharply between periods due to sampling and natural volatility."]

/-- `buildV2Answer` from the source; `userMessage` is carried but unused, as
in the source body. -/
def buildV2Answer (userMessage siteUrl : String) (preset : Preset)
    (intentOpt : Option Intent) (gscData : Option V2GscData) : V2Answer :=
  let results := (gscData.map V2GscData.results).getD []
  let primary := primaryResult results
  let hasData := (primary.map fun p => decide (p.kind ≠ .empty)).getD false
  let currentRange := primary.map V2IntentResult.rangeCurrent
  let previousRange := primary.map V2IntentResult.rangePrevious
  let intentLabels := insertionDedup
    ((results.map fun r => describeIntent (some r.intent)).filter
      fun s => s ≠ describeIntent none)
  let analysisLabel :=
    if intentLabels.isEmpty then
      describeIntent (intentOpt.orElse fun _ => primary.map V2IntentResult.intent)
    else String.intercalate ", " intentLabels
  let summary :=
    (match currentRange, previousRange with
      | some c, some p =>
        "Analyzed " ++ analysisLabel ++ " for " ++ siteUrl ++ " (" ++ c.startDate ++
          " to " ++ c.endDate ++ ") vs the previous period (" ++ p.startDate ++ " to " ++
          p.endDate ++ ")."
      | _, _ =>
        "Provided guidance for " ++ describeIntent intentOpt ++ " for " ++ siteUrl ++
          " (no GSC data was pulled).") ++
    " " ++ "The notes below highlight the biggest deltas and the next actions that are most likely to move results."
  let exPick := pickExampleFromResults results
  let totalsDelta := primary.map fun p => computeTotalsDelta p.totalsCurrent p.totalsPrevious
  let microInsights := if hasData then deriveMicroInsights totalsDelta results else []
  let keyFindingsBase :=
    (match primary, currentRange, previousRange with
      | some pr, some c, some p =>
        if !hasData then noDataFindings siteUrl c p
        else
          (match pr.kind, pr.items with
            | .brand_vs_nonbrand, .brand b => brandFindings b
            | _, _ => totalsFindings pr.totalsCurrent pr.totalsPrevious)
      | _, _, _ =>
        ["No Search Console comparison data was available to compute period-over-period deltas."]) ++
    topMoverFinding primary exPick
  let keyFindings := ensureBetween
    (((keyFindingsBase ++ additionalFindings results ++ microInsights).filter
      fun s => jsTrim s ≠ "")) 4 8
    "No additional findings were available from the returned dataset."
  let likelyCauses := ensureBetween
    (likelyCausesBase hasData (currentRange.isSome ∧ previousRange.isSome : Bool)
      totalsDelta intentOpt) 3 6
    "Additional diagnostics may be needed to isolate the primary driver."
  let recommendedActions := buildRecommendedActions
    (intentOpt.orElse fun _ => primary.map V2IntentResult.intent) exPick totalsDelta
    hasData siteUrl
  let itemsCount := itemsCountOf results
  let confidence :=
    match primary with
    | some pr =>
      chooseConfidence hasData pr.totalsCurrent.impressions pr.totalsPrevious.impressions
        itemsCount
    | none => ⟨.Medium, "No comparison totals were available, so guidance is directional."⟩
  let whatStandsOut :=
    if microInsights.isEmpty then "The biggest changes appear concentrated in the top movers."
    else firstSentence (microInsights.headD "")
  { summary := summary
    keyFindings := keyFindings
    likelyCauses := likelyCauses
    recommendedActions := recommendedActions
    whatStandsOut := whatStandsOut
    confidence := confidence
    debugComparisons :=
      if gscData.isSome then
        results.map fun r =>
          intentName r.intent ++ ":" ++ r.rangeCurrent.startDate ++ ".." ++
            r.rangeCurrent.endDate ++ " vs " ++ r.rangePrevious.startDate ++ ".." ++
            r.rangePrevious.endDate
      else []
    debugMicroInsights := microInsights }

/-! ### Structural renderer (`renderV2AnswerMarkdown` in src/lib) -/

/-- The exact line sequence the renderer pushes before joining with
newlines. -/
def renderV2AnswerLines (answer : V2Answer) : List String :=
  let summary := jsTrim answer.summary
  let keyFindings := ensureBetween
    ((answer.keyFindings.map jsTrim).filter fun s => s ≠ "") 4 8 "—"
  let likelyCauses := ensureBetween
    ((answer.likelyCauses.map jsTrim).filter fun s => s ≠ "") 3 6 "—"
  let recommended := ensureBetween answer.recommendedActions 3 7
    ⟨"Review and iterate based on the biggest movers.", .low⟩
  ["## Summary", summary, "", "## Key findings"] ++
    keyFindings.map (fun b => "• " ++ b) ++
    ["", "## Likely causes"] ++
    likelyCauses.map (fun b => "• " ++ b) ++
    ["", "## Recommended actions"] ++
    recommended.enum.map
      (fun p => toString (p.1 + 1) ++ ". " ++ jsTrim p.2.step ++ " [" ++
        priorityLabel p.2.priority ++ "]") ++
    ["", "What stands out: " ++ firstSentence answer.whatStandsOut, "", "## Confidence",
     confidenceLabel answer.confidence.level ++ " — " ++ firstSentence answer.confidence.reason]

/-- `renderV2AnswerMarkdown`: join the lines, trim, and append a final
newline. -/
def renderV2AnswerMarkdown (answer : V2Answer) : String :=
  jsTrim (String.intercalate "\n" (renderV2AnswerLines answer)) ++ "\n"

/-! ### Auxiliary definitions used by the verification statements -/

/-- Balanced exhaustive checker: `checkRange f fuel lo len` tests `f` on
every point of `[lo, lo + len)` with logarithmic evaluation depth. -/
def checkRange (f : ℕ → Bool) : ℕ → ℕ → ℕ → Bool
  | 0, _, len => decide (len = 0)
  | fuel + 1, lo, len =>
    if len = 0 then true
    else if len = 1 then f lo
    else checkRange f fuel lo (len / 2) && checkRange f fuel (lo + len / 2) (len - len / 2)

/-- One past the last day-of-era of a year-of-era (the last year of an era
runs to the era's end, one day beyond `yearStartDoe 400`, because the
era-closing leap day belongs to it). -/
def yearEndDoe (yoe : ℕ) : ℕ :=
  if yoe = 399 then 146097 else yearStartDoe (yoe + 1)

/-- Table check for the year-of-era extraction: correct at both ends of
every year of an era. -/
def yoeTableOk (yoe : ℕ) : Bool :=
  yoeOfDoe (yearStartDoe yoe) == yoe && yoeOfDoe (yearEndDoe yoe - 1) == yoe

/-- Table check for the month/day round-trip inside one year. -/
def doyTableOk (doy : ℕ) : Bool :=
  let m := monthOfDoy doy
  let d := domOfDoy doy
  ((153 * (if m > 2 then m - 3 else m + 9) + 2) / 5 + d - 1 == doy) &&
    decide (1 ≤ m) && decide (m ≤ 12) && decide (1 ≤ d) && decide (d ≤ 31)

/-- A string with no embedded newline (one rendered line). -/
def noNewline (s : String) : Prop := '\n' ∉ s.data

instance (s : String) : Decidable (noNewline s) := by
  unfold noNewline
  infer_instance

/-- Number of lines in a line list equal to a given line. -/
def countEq (L : List String) (t : String) : ℕ :=
  (L.filter fun s => s == t).length

/-- The five section headings of the rendered markdown, in order. -/
def requiredHeadings : List String :=
  ["## Summary", "## Key findings", "## Likely causes", "## Recommended actions",
   "## Confidence"]

/-! ### Lemmas: insertion-order deduplication -/

theorem mem_insertionDedupAux (x : String) :
    ∀ (l seen : List String), x ∈ insertionDedupAux seen l ↔ x ∈ l ∧ x ∉ seen := by
  intro l
  induction l with
  | nil => intro seen; simp [insertionDedupAux]
  | cons k ks ih =>
    intro seen
    by_cases hk : k ∈ seen
    · rw [insertionDedupAux, if_pos hk, ih]
      constructor
      · rintro ⟨h1, h2⟩
        exact ⟨List.mem_cons_of_mem _ h1, h2⟩
      · rintro ⟨h1, h2⟩
        rcases List.mem_cons.1 h1 with rfl | h1
        · exact absurd hk h2
        · exact ⟨h1, h2⟩
    · rw [insertionDedupAux, if_neg hk]
      simp only [List.mem_cons, ih]
      constructor
      · rintro (rfl | ⟨h1, h2⟩)
        · exact ⟨Or.inl rfl, hk⟩
        · exact ⟨Or.inr h1, fun hx => h2 (Or.inr hx)⟩
      · rintro ⟨rfl | h1, h2⟩
        · exact Or.inl rfl
        · by_cases hxk : x = k
          · exact Or.inl hxk
          · exact Or.inr ⟨h1, fun hx => by
              rcases hx with h | h
              · exact hxk h
              · exact h2 h⟩

theorem nodup_insertionDedupAux :
    ∀ (l seen : List String), (insertionDedupAux seen l).Nodup := by
  intro l
  induction l with
  | nil => intro seen; simp [insertionDedupAux]
  | cons k ks ih =>
    intro seen
    by_cases hk : k ∈ seen
    · rw [insertionDedupAux, if_pos hk]
      exact ih seen
    · rw [insertionDedupAux, if_neg hk]
      refine List.nodup_cons.2 ⟨fun hmem => ?_, ih (k :: seen)⟩
      have := (mem_insertionDedupAux k ks (k :: seen)).1 hmem
      exact this.2 (List.mem_cons_self _ _)

theorem mem_insertionDedup (x : String) (l : List String) :
    x ∈ insertionDedup l ↔ x ∈ l := by
  unfold insertionDedup
  rw [mem_insertionDedupAux]
  simp

theorem nodup_insertionDedup (l : List String) : (insertionDedup l).Nodup :=
  nodup_insertionDedupAux l []

/-! ### Lemmas: merge keys and map lookup -/

theorem mem_mapKeys (x : String) (rows : List NormalizedGscRow) :
    x ∈ mapKeys rows ↔ x ∈ rows.map firstKey := by
  unfold mapKeys
  exact mem_insertionDedup _ _

theorem mem_mergeKeys (x : String) (currRows prevRows : List NormalizedGscRow) :
    x ∈ mergeKeys currRows prevRows ↔
      x ≠ "" ∧ (x ∈ currRows.map firstKey ∨ x ∈ prevRows.map firstKey) := by
  unfold mergeKeys
  rw [mem_insertionDedup, List.mem_filter, List.mem_append, mem_mapKeys, mem_mapKeys]
  simp only [decide_eq_true_eq]
  tauto

theorem nodup_mergeKeys (currRows prevRows : List NormalizedGscRow) :
    (mergeKeys currRows prevRows).Nodup :=
  nodup_insertionDedup _

theorem lastWithKey_eq_none (rows : List NormalizedGscRow) (k : String)
    (h : k ∉ rows.map firstKey) : lastWithKey rows k = none := by
  unfold lastWithKey
  have hf : rows.filter (fun r => firstKey r == k) = [] := by
    rw [List.filter_eq_nil_iff]
    intro r hr hbeq
    exact h (List.mem_map.2 ⟨r, hr, eq_of_beq hbeq⟩)
  rw [hf]
  rfl

theorem lastWithKey_append_last (pre : List NormalizedGscRow) (r : NormalizedGscRow) :
    lastWithKey (pre ++ [r]) (firstKey r) = some r := by
  unfold lastWithKey
  rw [List.filter_append]
  have hr : [r].filter (fun x => firstKey x == firstKey r) = [r] := by
    simp [List.filter]
  rw [hr, List.getLast?_append]
  rfl

theorem mkDeltaRow_key (k : String) (c p : Option NormalizedGscRow) :
    (mkDeltaRow k c p).key = k := rfl

/-! ### Claim C1 -/

/-- Claim C1: `mergeDeltas` is a full outer join.  The output has exactly
one `DeltaRow` per distinct non-empty first key of either input (its size
is the size of the key-set union minus the empty string); a key present on
only one side gets zeros for the missing side's clicks, impressions, ctr
and position; and every output row satisfies
`deltaClicks = clicksCurrent - clicksPrevious` and
`deltaPosition = positionPrevious - positionCurrent`. -/
theorem mergeDeltas_full_outer_join (currRows prevRows : List NormalizedGscRow) :
    ((mergeDeltas currRows prevRows).map DeltaRow.key).Nodup ∧
    (∀ k : String,
      k ∈ (mergeDeltas currRows prevRows).map DeltaRow.key ↔
        k ≠ "" ∧ (k ∈ currRows.map firstKey ∨ k ∈ prevRows.map firstKey)) ∧
    (mergeDeltas currRows prevRows).length =
      (((currRows.map firstKey).toFinset ∪ (prevRows.map firstKey).toFinset).erase "").card ∧
    (∀ d ∈ mergeDeltas currRows prevRows,
      d.deltaClicks = d.clicksCurrent - d.clicksPrevious ∧
      d.deltaPosition = d.positionPrevious - d.positionCurrent) ∧
    (∀ d ∈ mergeDeltas currRows prevRows, d.key ∉ prevRows.map firstKey →
      d.clicksPrevious = 0 ∧ d.impressionsPrevious = 0 ∧ d.ctrPrevious = 0 ∧
        d.positionPrevious = 0) ∧
    (∀ d ∈ mergeDeltas currRows prevRows, d.key ∉ currRows.map firstKey →
      d.clicksCurrent = 0 ∧ d.impressionsCurrent = 0 ∧ d.ctrCurrent = 0 ∧
        d.positionCurrent = 0) := by
  have hkeys : (mergeDeltas currRows prevRows).map DeltaRow.key = mergeKeys currRows prevRows := by
    unfold mergeDeltas
    rw [List.map_map]
    have hcongr : ∀ k ∈ mergeKeys currRows prevRows,
        (DeltaRow.key ∘ fun k => mkDeltaRow k (lastWithKey currRows k) (lastWithKey prevRows k)) k =
          id k := fun _ _ => rfl
    rw [List.map_congr_left hcongr, List.map_id]
  refine ⟨?_, ?_, ?_, ?_, ?_, ?_⟩
  · rw [hkeys]; exact nodup_mergeKeys _ _
  · intro k
    rw [hkeys]
    exact mem_mergeKeys k _ _
  · have hlen : (mergeDeltas currRows prevRows).length = (mergeKeys currRows prevRows).length := by
      unfold mergeDeltas
      exact List.length_map _ _
    rw [hlen]
    have hfin : (mergeKeys currRows prevRows).toFinset =
        (((currRows.map firstKey).toFinset ∪ (prevRows.map firstKey).toFinset).erase "") := by
      apply Finset.ext
      intro k
      rw [List.mem_toFinset, mem_mergeKeys, Finset.mem_erase, Finset.mem_union,
        List.mem_toFinset, List.mem_toFinset]
    rw [← hfin, List.toFinset_card_of_nodup (nodup_mergeKeys _ _)]
  · intro d hd
    rcases List.mem_map.1 (by unfold mergeDeltas at hd; exact hd) with ⟨k, _, rfl⟩
    exact ⟨rfl, rfl⟩
  · intro d hd hnp
    rcases List.mem_map.1 (by unfold mergeDeltas at hd; exact hd) with ⟨k, _, rfl⟩
    rw [mkDeltaRow_key] at hnp
    rw [lastWithKey_eq_none prevRows k hnp]
    exact ⟨rfl, rfl, rfl, rfl⟩
  · intro d hd hnc
    rcases List.mem_map.1 (by unfold mergeDeltas at hd; exact hd) with ⟨k, _, rfl⟩
    rw [mkDeltaRow_key] at hnc
    rw [lastWithKey_eq_none currRows k hnc]
    exact ⟨rfl, rfl, rfl, rfl⟩

/-- Witness for C1 at a concrete input: current `shoes` row only, previous
`boots` row only. -/
theorem mergeDeltas_full_outer_join_witness :
    (((mergeDeltas [⟨["shoes"], 100, 0, 0, 0⟩] [⟨["boots"], 80, 0, 0, 0⟩]).map
        DeltaRow.key).Nodup) ∧
    ("shoes" ∈ (mergeDeltas [⟨["shoes"], 100, 0, 0, 0⟩] [⟨["boots"], 80, 0, 0, 0⟩]).map
        DeltaRow.key) ∧
    (∀ d ∈ mergeDeltas [⟨["shoes"], 100, 0, 0, 0⟩] [⟨["boots"], 80, 0, 0, 0⟩],
      d.key ∉ ([⟨["boots"], 80, 0, 0, 0⟩] : List NormalizedGscRow).map firstKey →
        d.clicksPrevious = 0) := by
  obtain ⟨h1, h2, _, _, h5, _⟩ :=
    mergeDeltas_full_outer_join [⟨["shoes"], 100, 0, 0, 0⟩] [⟨["boots"], 80, 0, 0, 0⟩]
  refine ⟨h1, ?_, fun d hd hk => (h5 d hd hk).1⟩
  exact (h2 "shoes").2 ⟨by decide, Or.inl (by decide)⟩

/-! ### Claim C10 -/

/-- Claim C10 (implicit): when an input list of `mergeDeltas` contains
several rows sharing the same non-empty first key, only the last such
row's metrics are used for that key (earlier duplicates are discarded, not
aggregated), and the output still contains exactly one row for the key.
Stated for both the current and the previous side. -/
theorem mergeDeltas_duplicate_last_wins (pre : List NormalizedGscRow)
    (r : NormalizedGscRow) (others : List NormalizedGscRow)
    (hk : firstKey r ≠ "") :
    (∃ d ∈ mergeDeltas (pre ++ [r]) others,
      d.key = firstKey r ∧ d.clicksCurrent = r.clicks ∧
      d.impressionsCurrent = r.impressions ∧ d.ctrCurrent = r.ctr ∧
      d.positionCurrent = r.position ∧
      ∀ d2 ∈ mergeDeltas (pre ++ [r]) others, d2.key = firstKey r → d2 = d) ∧
    (∃ d ∈ mergeDeltas others (pre ++ [r]),
      d.key = firstKey r ∧ d.clicksPrevious = r.clicks ∧
      d.impressionsPrevious = r.impressions ∧ d.ctrPrevious = r.ctr ∧
      d.positionPrevious = r.position ∧
      ∀ d2 ∈ mergeDeltas others (pre ++ [r]), d2.key = firstKey r → d2 = d) := by
  have hmem : firstKey r ∈ (pre ++ [r]).map firstKey := by
    rw [List.map_append]
    exact List.mem_append.2 (Or.inr (List.mem_singleton.2 rfl))
  constructor
  · have hkin : firstKey r ∈ mergeKeys (pre ++ [r]) others :=
      (mem_mergeKeys _ _ _).2 ⟨hk, Or.inl hmem⟩
    refine ⟨mkDeltaRow (firstKey r) (lastWithKey (pre ++ [r]) (firstKey r))
      (lastWithKey others (firstKey r)), ?_, rfl, ?_, ?_, ?_, ?_, ?_⟩
    · unfold mergeDeltas
      exact List.mem_map.2 ⟨firstKey r, hkin, rfl⟩
    all_goals try (rw [lastWithKey_append_last]; rfl)
    · intro d2 hd2 hkey
      rcases List.mem_map.1 (by unfold mergeDeltas at hd2; exact hd2) with ⟨k, _, rfl⟩
      rw [mkDeltaRow_key] at hkey
      rw [hkey]
  · have hkin : firstKey r ∈ mergeKeys others (pre ++ [r]) :=
      (mem_mergeKeys _ _ _).2 ⟨hk, Or.inr hmem⟩
    refine ⟨mkDeltaRow (firstKey r) (lastWithKey others (firstKey r))
      (lastWithKey (pre ++ [r]) (firstKey r)), ?_, rfl, ?_, ?_, ?_, ?_, ?_⟩
    · unfold mergeDeltas
      exact List.mem_map.2 ⟨firstKey r, hkin, rfl⟩
    all_goals try (rw [lastWithKey_append_last]; rfl)
    · intro d2 hd2 hkey
      rcases List.mem_map.1 (by unfold mergeDeltas at hd2; exact hd2) with ⟨k, _, rfl⟩
      rw [mkDeltaRow_key] at hkey
      rw [hkey]

/-- Witness for C10: two current rows with the key `a`; the merged row uses
the later row's clicks. -/
theorem mergeDeltas_duplicate_last_wins_witness :
    ∃ d ∈ mergeDeltas ([⟨["a"], 1, 0, 0, 0⟩] ++ [⟨["a"], 2, 0, 0, 0⟩]) [],
      d.key = "a" ∧ d.clicksCurrent = 2 := by
  obtain ⟨⟨d, hd, hkey, hclicks, _⟩, _⟩ :=
    mergeDeltas_duplicate_last_wins [⟨["a"], 1, 0, 0, 0⟩] ⟨["a"], 2, 0, 0, 0⟩ []
      (by decide)
  exact ⟨d, hd, hkey, hclicks⟩

/-! ### Lemmas: normalization -/

theorem filterMap_strOnly_map (l : List String) :
    (l.map JVal.str).filterMap strOnly = l := by
  induction l with
  | nil => rfl
  | cons a as ih => simp [strOnly, ih]

theorem normalizeGscRow_eq (raw : RawGscRow) (n : NormalizedGscRow)
    (h : normalizeGscRow raw = some n) :
    n.keys = (raw.keys.getD []).filterMap strOnly ∧ n.keys ≠ [] ∧
    n.clicks = numOrZero raw.clicks ∧ n.impressions = numOrZero raw.impressions ∧
    n.ctr = (if numOrZero raw.ctr > 1 then numOrZero raw.ctr / 100 else numOrZero raw.ctr) ∧
    n.position = numOrZero raw.position := by
  unfold normalizeGscRow at h
  dsimp only at h
  split at h
  · exact absurd h (by simp)
  · rename_i hk
    rw [Option.some.injEq] at h
    subst h
    refine ⟨rfl, ?_, rfl, rfl, rfl, rfl⟩
    intro hnil
    have hnil2 : List.filterMap strOnly (raw.keys.getD []) = [] := hnil
    exact hk (by rw [hnil2]; rfl)

/-! ### Claim C5 -/

/-- Counterexample to C5 as stated: a raw row with `ctr = 500` (a
percentage above 100) is accepted and normalizes to `ctr = 5`; normalizing
the result again divides by 100 once more and yields a different row. -/
theorem normalize_idempotence_counterexample :
    normalizeGscRow ⟨some [.str "a"], none, none, some (.num 500), none⟩ =
      some ⟨["a"], 0, 0, 5, 0⟩ ∧
    normalizeGscRow (NormalizedGscRow.toRaw ⟨["a"], 0, 0, 5, 0⟩) =
      some ⟨["a"], 0, 0, 1 / 20, 0⟩ ∧
    normalizeGscRow (NormalizedGscRow.toRaw ⟨["a"], 0, 0, 5, 0⟩) ≠
      some ⟨["a"], 0, 0, 5, 0⟩ := by
  refine ⟨?_, ?_, ?_⟩
  · norm_num [normalizeGscRow, numOrZero, strOnly, List.filterMap]
  · norm_num [normalizeGscRow, NormalizedGscRow.toRaw, numOrZero, strOnly, List.filterMap]
  · norm_num [normalizeGscRow, NormalizedGscRow.toRaw, numOrZero, strOnly, List.filterMap,
      NormalizedGscRow.mk.injEq]

/-- Claim C5 (amended): normalization is idempotent on every accepted raw
input whose normalized ctr is at most 1 — equivalently, whose raw ctr does
not exceed 100.  (For a raw ctr above 100 the second normalization divides
by 100 again, as the counterexample shows.) -/
theorem normalizeGscRow_idempotent (raw : RawGscRow) (n : NormalizedGscRow)
    (h : normalizeGscRow raw = some n) (hle : n.ctr ≤ 1) :
    normalizeGscRow n.toRaw = some n := by
  obtain ⟨hkeys, hne, hclicks, himpr, hctr, hpos⟩ := normalizeGscRow_eq raw n h
  have hkeys2 : (n.toRaw.keys.getD []).filterMap strOnly = n.keys := by
    simp only [NormalizedGscRow.toRaw, Option.getD_some]
    exact filterMap_strOnly_map n.keys
  have hkne : ((n.toRaw.keys.getD []).filterMap strOnly).isEmpty = false := by
    rw [hkeys2]
    cases hnk : n.keys with
    | nil => exact absurd hnk hne
    | cons a as => rfl
  have hctr2 : ¬ (numOrZero n.toRaw.ctr > 1) := by
    simp only [NormalizedGscRow.toRaw, numOrZero]
    exact not_lt.2 hle
  simp only [normalizeGscRow, hkne, Bool.false_eq_true, if_false, hkeys2, if_neg hctr2]
  simp only [NormalizedGscRow.toRaw, numOrZero]
  have hkne3 : n.keys.isEmpty = false := by
    cases hnk : n.keys with
    | nil => exact absurd hnk hne
    | cons a as => rfl
  rw [hkne3]
  rfl

/-- Witness for C5 at a concrete accepted row with ctr `0.5`. -/
theorem normalizeGscRow_idempotent_witness :
    normalizeGscRow (NormalizedGscRow.toRaw ⟨["a"], 3, 7, 1 / 2, 4⟩) =
      some ⟨["a"], 3, 7, 1 / 2, 4⟩ := by
  apply normalizeGscRow_idempotent ⟨some [.str "a"], some (.num 3), some (.num 7),
    some (.num (1 / 2)), some (.num 4)⟩
  · norm_num [normalizeGscRow, numOrZero, strOnly, List.filterMap]
  · norm_num

/-! ### Claim C6 -/

/-- Counterexample to C6 as stated: an accepted raw row with clicks `-3`,
impressions `-1`, ctr `500` and no position field normalizes to a row with
negative clicks and impressions, ctr `5 > 1`, and position `0` (not
positive). -/
theorem normalize_invariant_counterexample :
    normalizeGscRow ⟨some [.str "a"], some (.num (-3)), some (.num (-1)),
        some (.num 500), none⟩ =
      some ⟨["a"], -3, -1, 5, 0⟩ ∧
    ¬ (0 ≤ (⟨["a"], -3, -1, 5, 0⟩ : NormalizedGscRow).clicks ∧
       0 ≤ (⟨["a"], -3, -1, 5, 0⟩ : NormalizedGscRow).impressions ∧
       (⟨["a"], -3, -1, 5, 0⟩ : NormalizedGscRow).ctr ≤ 1 ∧
       0 < (⟨["a"], -3, -1, 5, 0⟩ : NormalizedGscRow).position) := by
  constructor
  · norm_num [normalizeGscRow, numOrZero, strOnly, List.filterMap]
  · norm_num

/-- Claim C6 (amended): every row returned by `normalizeGscRow` has a
non-empty string key list; the numeric fields are taken verbatim from
numeric inputs with default 0 and no clamping, and ctr is divided by 100
exactly when the supplied value exceeds 1.  Consequently the claimed
bounds (non-negative clicks and impressions, ctr in `[0,1]`, positive
position) hold whenever the raw inputs satisfy them: raw clicks and
impressions non-negative, raw ctr in `[0,100]`, raw position positive. -/
theorem normalizeGscRow_invariant (raw : RawGscRow) (n : NormalizedGscRow)
    (h : normalizeGscRow raw = some n) :
    n.keys ≠ [] ∧
    n.clicks = numOrZero raw.clicks ∧
    n.impressions = numOrZero raw.impressions ∧
    n.position = numOrZero raw.position ∧
    n.ctr = (if numOrZero raw.ctr > 1 then numOrZero raw.ctr / 100 else numOrZero raw.ctr) ∧
    (0 ≤ numOrZero raw.clicks → 0 ≤ n.clicks) ∧
    (0 ≤ numOrZero raw.impressions → 0 ≤ n.impressions) ∧
    (0 ≤ numOrZero raw.ctr → numOrZero raw.ctr ≤ 100 → 0 ≤ n.ctr ∧ n.ctr ≤ 1) ∧
    (0 < numOrZero raw.position → 0 < n.position) := by
  obtain ⟨hkeys, hne, hclicks, himpr, hctr, hpos⟩ := normalizeGscRow_eq raw n h
  refine ⟨hne, hclicks, himpr, hpos, hctr, ?_, ?_, ?_, ?_⟩
  · intro h0; rw [hclicks]; exact h0
  · intro h0; rw [himpr]; exact h0
  · intro h0 h100
    rw [hctr]
    by_cases hgt : numOrZero raw.ctr > 1
    · rw [if_pos hgt]
      constructor
      · positivity
      · rw [div_le_one (by norm_num)]
        exact h100
    · rw [if_neg hgt]
      exact ⟨h0, le_of_not_lt hgt⟩
  · intro h0; rw [hpos]; exact h0

/-- Witness for C6 at a concrete accepted row with in-range raw fields. -/
theorem normalizeGscRow_invariant_witness :
    normalizeGscRow ⟨some [.str "a"], some (.num 3), some (.num 7),
        some (.num 50), some (.num 2)⟩ =
      some ⟨["a"], 3, 7, 1 / 2, 2⟩ ∧
    (⟨["a"], 3, 7, 1 / 2, 2⟩ : NormalizedGscRow).keys ≠ [] := by
  have hnorm : normalizeGscRow ⟨some [.str "a"], some (.num 3), some (.num 7),
      some (.num 50), some (.num 2)⟩ = some ⟨["a"], 3, 7, 1 / 2, 2⟩ := by
    norm_num [normalizeGscRow, numOrZero, strOnly, List.filterMap]
  exact ⟨hnorm, (normalizeGscRow_invariant _ _ hnorm).1⟩

/-! ### Lemmas: calendar round-trip -/

theorem checkRange_sound (f : ℕ → Bool) :
    ∀ (fuel lo len : ℕ), checkRange f fuel lo len = true →
      ∀ i, lo ≤ i → i < lo + len → f i = true := by
  intro fuel
  induction fuel with
  | zero =>
    intro lo len h i h1 h2
    simp only [checkRange, decide_eq_true_eq] at h
    omega
  | succ fl ih =>
    intro lo len h i h1 h2
    simp only [checkRange] at h
    by_cases h0 : len = 0
    · omega
    · by_cases hone : len = 1
      · rw [if_neg h0, if_pos hone] at h
        have hi : i = lo := by omega
        rwa [hi]
      · rw [if_neg h0, if_neg hone, Bool.and_eq_true] at h
        rcases h with ⟨ha, hb⟩
        by_cases hc : i < lo + len / 2
        · exact ih lo (len / 2) ha i h1 hc
        · exact ih (lo + len / 2) (len - len / 2) hb i (by omega) (by omega)

theorem yoeTable_all : ∀ yoe, yoe < 400 → yoeTableOk yoe = true := by
  intro yoe h
  have hc : checkRange yoeTableOk 12 0 400 = true := by decide
  exact checkRange_sound yoeTableOk 12 0 400 hc yoe (Nat.zero_le _) (by omega)

theorem doyTable_all : ∀ doy, doy < 366 → doyTableOk doy = true := by
  intro doy h
  have hc : checkRange doyTableOk 12 0 366 = true := by decide
  exact checkRange_sound doyTableOk 12 0 366 hc doy (Nat.zero_le _) (by omega)

theorem yoeOfDoe_mono {a b : ℕ} (h : a ≤ b) : yoeOfDoe a ≤ yoeOfDoe b := by
  unfold yoeOfDoe
  apply Nat.div_le_div_right
  have hm : Monotone (fun x : ℕ => x - x / 1460 + x / 36524 - x / 146096) :=
    monotone_nat_of_le_succ fun n => by omega
  exact hm h

theorem yearEndDoe_span (yoe : ℕ) (h : yoe < 400) :
    yearStartDoe yoe < yearEndDoe yoe ∧ yearEndDoe yoe ≤ yearStartDoe yoe + 366 := by
  by_cases h399 : yoe = 399
  · subst h399
    constructor <;> decide
  · unfold yearEndDoe
    rw [if_neg h399]
    unfold yearStartDoe
    omega

theorem doe_bracket_aux :
    ∀ k, k ≤ 400 → ∀ doe, doe < yearStartDoe k →
      ∃ yoe, yoe < k ∧ yearStartDoe yoe ≤ doe ∧ doe < yearStartDoe (yoe + 1) := by
  intro k
  induction k with
  | zero =>
    intro _ doe h
    exact absurd h (by simp [yearStartDoe])
  | succ k ih =>
    intro hk doe h
    by_cases h2 : doe < yearStartDoe k
    · obtain ⟨yoe, h3, h4, h5⟩ := ih (by omega) doe h2
      exact ⟨yoe, by omega, h4, h5⟩
    · exact ⟨k, by omega, by omega, h⟩

theorem doe_bracket {doe : ℕ} (h : doe < 146097) :
    ∃ yoe, yoe < 400 ∧ yearStartDoe yoe ≤ doe ∧ doe < yearEndDoe yoe := by
  by_cases hbig : doe < yearStartDoe 400
  · obtain ⟨yoe, h1, h2, h3⟩ := doe_bracket_aux 400 (by omega) doe hbig
    refine ⟨yoe, h1, h2, ?_⟩
    by_cases h399 : yoe = 399
    · subst h399
      have he : yearEndDoe 399 = 146097 := by decide
      omega
    · unfold yearEndDoe
      rw [if_neg h399]
      exact h3
  · have hs : yearStartDoe 400 = 146096 := by decide
    have hs399 : yearStartDoe 399 = 145731 := by decide
    have he : yearEndDoe 399 = 146097 := by decide
    exact ⟨399, by omega, by omega, by omega⟩

theorem yoeOfDoe_correct {doe : ℕ} (h : doe < 146097) :
    yoeOfDoe doe < 400 ∧ yearStartDoe (yoeOfDoe doe) ≤ doe ∧
      doe < yearEndDoe (yoeOfDoe doe) := by
  obtain ⟨yoe, hlt, hlo, hhi⟩ := doe_bracket h
  have htab := yoeTable_all yoe hlt
  rw [yoeTableOk, Bool.and_eq_true, beq_iff_eq, beq_iff_eq] at htab
  obtain ⟨e1, e2⟩ := htab
  have hspan := yearEndDoe_span yoe hlt
  have hm1 : yoe ≤ yoeOfDoe doe := by
    have := yoeOfDoe_mono hlo
    omega
  have hm2 : yoeOfDoe doe ≤ yoe := by
    have := yoeOfDoe_mono (show doe ≤ yearEndDoe yoe - 1 by omega)
    omega
  have : yoeOfDoe doe = yoe := by omega
  rw [this]
  exact ⟨hlt, hlo, hhi⟩

theorem natRound {doe : ℕ} (h : doe < 146097) :
    doeOfCivil (yoeOfDoe doe) (monthOfDoy (doyOfDoe doe)) (domOfDoy (doyOfDoe doe)) = doe ∧
    yoeOfDoe doe < 400 ∧
    1 ≤ monthOfDoy (doyOfDoe doe) ∧ monthOfDoy (doyOfDoe doe) ≤ 12 ∧
    1 ≤ domOfDoy (doyOfDoe doe) ∧ domOfDoy (doyOfDoe doe) ≤ 31 := by
  obtain ⟨hyoe400, hlo, hhi⟩ := yoeOfDoe_correct h
  have hspan := yearEndDoe_span (yoeOfDoe doe) hyoe400
  have hdoy : doyOfDoe doe = doe - yearStartDoe (yoeOfDoe doe) := rfl
  have hdoylt : doyOfDoe doe < 366 := by omega
  have htab := doyTable_all (doyOfDoe doe) hdoylt
  rw [doyTableOk] at htab
  simp only [Bool.and_eq_true, beq_iff_eq, decide_eq_true_eq] at htab
  obtain ⟨⟨⟨⟨hrt, hm1⟩, hm12⟩, hd1⟩, hd31⟩ := htab
  refine ⟨?_, hyoe400, hm1, hm12, hd1, hd31⟩
  have hexp : doeOfCivil (yoeOfDoe doe) (monthOfDoy (doyOfDoe doe)) (domOfDoy (doyOfDoe doe)) =
      365 * yoeOfDoe doe + yoeOfDoe doe / 4 - yoeOfDoe doe / 100 +
        ((153 * (if monthOfDoy (doyOfDoe doe) > 2 then monthOfDoy (doyOfDoe doe) - 3
          else monthOfDoy (doyOfDoe doe) + 9) + 2) / 5 + domOfDoy (doyOfDoe doe) - 1) := rfl
  rw [hexp]
  have hys : yearStartDoe (yoeOfDoe doe) =
      365 * yoeOfDoe doe + yoeOfDoe doe / 4 - yoeOfDoe doe / 100 := rfl
  omega

theorem toDays_fromDays (z : ℤ) : toDays (fromDays z) = z := by
  have herad : Int.fdiv (z + 719468) 146097 = (z + 719468) / 146097 :=
    Int.fdiv_eq_ediv _ (by norm_num)
  set n : ℤ := z + 719468 with hn
  set era : ℤ := n / 146097 with hera
  set doeZ : ℤ := n - Int.fdiv n 146097 * 146097 with hdoeZ
  have hdz : doeZ = n - era * 146097 := by rw [hdoeZ, herad]
  have hbound : 0 ≤ doeZ ∧ doeZ < 146097 := by
    constructor <;> omega
  set doe : ℕ := doeZ.toNat with hdoe
  have hdoeEq : (doe : ℤ) = n - era * 146097 := by
    rw [hdoe, Int.toNat_of_nonneg hbound.1]
    exact hdz
  have hdlt : doe < 146097 := by omega
  obtain ⟨hrt, hyoe400, hm1, hm12, hd1, hd31⟩ := natRound hdlt
  have hfd : fromDays z =
      ⟨if monthOfDoy (doyOfDoe doe) ≤ 2 then ((yoeOfDoe doe : ℤ) + era * 400) + 1
        else ((yoeOfDoe doe : ℤ) + era * 400),
       (monthOfDoy (doyOfDoe doe) : ℤ), (domOfDoy (doyOfDoe doe) : ℤ)⟩ := by
    show Ymd.mk _ _ _ = _
    rw [hdoe, hdoeZ, hn, herad]
  rw [hfd]
  set m : ℕ := monthOfDoy (doyOfDoe doe)
  set d : ℕ := domOfDoy (doyOfDoe doe)
  set yoe : ℕ := yoeOfDoe doe
  have hyear : (if (m : ℤ) ≤ 2 then
      ((if m ≤ 2 then ((yoe : ℤ) + era * 400) + 1 else ((yoe : ℤ) + era * 400))) - 1
      else (if m ≤ 2 then ((yoe : ℤ) + era * 400) + 1 else ((yoe : ℤ) + era * 400))) =
      (yoe : ℤ) + era * 400 := by
    by_cases hc : m ≤ 2
    · have hcz : (m : ℤ) ≤ 2 := by exact_mod_cast hc
      rw [if_pos hcz, if_pos hc]
      ring
    · have hcz : ¬ (m : ℤ) ≤ 2 := by exact_mod_cast hc
      rw [if_neg hcz, if_neg hc]
  have herayoe : Int.fdiv ((yoe : ℤ) + era * 400) 400 = era := by
    rw [Int.fdiv_eq_ediv _ (by norm_num)]
    have h1 : (0 : ℤ) ≤ (yoe : ℤ) := by positivity
    have h2 : (yoe : ℤ) < 400 := by exact_mod_cast hyoe400
    omega
  have hexpand : ∀ (Y M D : ℤ), toDays ⟨Y, M, D⟩ =
      (Int.fdiv (if M ≤ 2 then Y - 1 else Y) 400) * 146097 +
      (doeOfCivil ((if M ≤ 2 then Y - 1 else Y) -
          (Int.fdiv (if M ≤ 2 then Y - 1 else Y) 400) * 400).toNat
        M.toNat D.toNat : ℤ) - 719468 := fun _ _ _ => rfl
  rw [hexpand, hyear, herayoe]
  have htn1 : ((yoe : ℤ) + era * 400 - era * 400).toNat = yoe := by
    have : (yoe : ℤ) + era * 400 - era * 400 = (yoe : ℤ) := by ring
    rw [this, Int.toNat_natCast]
  have htn2 : ((m : ℤ)).toNat = m := Int.toNat_natCast m
  have htn3 : ((d : ℤ)).toNat = d := Int.toNat_natCast d
  rw [htn1, htn2, htn3, hrt]
  omega

/-! ### Claim C2 -/

/-- Counterexample to C2 as stated: the well-formed range
`{0050-01-10 .. 0050-01-19}` is parsed through `Date.UTC`, which remaps the
two-digit year 50 to 1950, so the returned `endDate` is 1950-01-09 — not
one day before 0050-01-10. -/
theorem computePreviousRange_claim_counterexample :
    (Ymd.mk 50 1 10).wf ∧ (Ymd.mk 50 1 19).wf ∧
    toDays ⟨50, 1, 10⟩ ≤ toDays ⟨50, 1, 19⟩ ∧
    (computePreviousRange ⟨⟨50, 1, 10⟩, ⟨50, 1, 19⟩⟩).endDate = ⟨1950, 1, 9⟩ ∧
    toDays (computePreviousRange ⟨⟨50, 1, 10⟩, ⟨50, 1, 19⟩⟩).endDate ≠
      toDays ⟨50, 1, 10⟩ - 1 := by
  decide

/-- Claim C2 (amended): for every well-formed `DateRange` whose years are at
least 100 (outside the `Date.UTC` two-digit-year remapping) with
`startDate <= endDate`, `computePreviousRange` returns a range with the
same day-count whose `endDate` is exactly one day before `startDate` (no
gap, no overlap). -/
theorem computePreviousRange_previous_window (r : DateRange)
    (hs : r.startDate.wf) (he : r.endDate.wf)
    (hys : 100 ≤ r.startDate.year) (hye : 100 ≤ r.endDate.year)
    (hle : toDays r.startDate ≤ toDays r.endDate) :
    toDays (computePreviousRange r).endDate - toDays (computePreviousRange r).startDate =
      toDays r.endDate - toDays r.startDate ∧
    toDays (computePreviousRange r).endDate = toDays r.startDate - 1 := by
  have hp1 : parseYmdToDays r.startDate = toDays r.startDate := by
    unfold parseYmdToDays
    rw [if_neg (by omega : ¬(0 ≤ r.startDate.year ∧ r.startDate.year ≤ 99))]
  have hp2 : parseYmdToDays r.endDate = toDays r.endDate := by
    unfold parseYmdToDays
    rw [if_neg (by omega : ¬(0 ≤ r.endDate.year ∧ r.endDate.year ≤ 99))]
  have hend : (computePreviousRange r).endDate =
      fromDays (addUtcDays (parseYmdToDays r.startDate) (-1)) := rfl
  have hstart : (computePreviousRange r).startDate =
      fromDays (addUtcDays (addUtcDays (parseYmdToDays r.startDate) (-1))
        (-((parseYmdToDays r.endDate - parseYmdToDays r.startDate + 1) - 1))) := rfl
  rw [hend, hstart]
  unfold addUtcDays
  rw [toDays_fromDays, toDays_fromDays, hp1, hp2]
  constructor <;> ring

/-- Witness for C2 at the spec's example: current `2024-03-01..2024-03-28`
yields previous `2024-02-02..2024-02-29`, 28 days each. -/
theorem computePreviousRange_previous_window_witness :
    (Ymd.mk 2024 3 1).wf ∧ (Ymd.mk 2024 3 28).wf ∧
    toDays ⟨2024, 3, 1⟩ ≤ toDays ⟨2024, 3, 28⟩ ∧
    toDays (computePreviousRange ⟨⟨2024, 3, 1⟩, ⟨2024, 3, 28⟩⟩).endDate =
      toDays ⟨2024, 3, 1⟩ - 1 ∧
    computePreviousRange ⟨⟨2024, 3, 1⟩, ⟨2024, 3, 28⟩⟩ = ⟨⟨2024, 2, 2⟩, ⟨2024, 2, 29⟩⟩ := by
  have h := computePreviousRange_previous_window ⟨⟨2024, 3, 1⟩, ⟨2024, 3, 28⟩⟩
    (by decide) (by decide) (by decide) (by decide) (by decide)
  exact ⟨by decide, by decide, by decide, h.2, by decide⟩

/-! ### Lemmas: comparator relations are total preorders -/

theorem charListLe_total : ∀ a b : List Char, charListLe a b = true ∨ charListLe b a = true := by
  intro a
  induction a with
  | nil => intro b; left; rfl
  | cons x xs ih =>
    intro b
    cases b with
    | nil => right; rfl
    | cons y ys =>
      by_cases hxy : x.toNat = y.toNat
      · rw [charListLe, if_pos hxy, charListLe, if_pos hxy.symm]
        exact ih ys
      · rcases Nat.lt_or_ge x.toNat y.toNat with hlt | hge
        · left
          rw [charListLe, if_neg hxy]
          exact decide_eq_true hlt
        · right
          rw [charListLe, if_neg (fun he => hxy he.symm)]
          exact decide_eq_true (by omega)

theorem charListLe_trans :
    ∀ a b c : List Char, charListLe a b = true → charListLe b c = true →
      charListLe a c = true := by
  intro a
  induction a with
  | nil => intro b c _ _; rfl
  | cons x xs ih =>
    intro b c hab hbc
    cases b with
    | nil => exact absurd hab (by rw [charListLe]; simp)
    | cons y ys =>
      cases c with
      | nil => exact absurd hbc (by rw [charListLe]; simp)
      | cons z zs =>
        rw [charListLe] at hab hbc ⊢
        by_cases hxy : x.toNat = y.toNat
        · rw [if_pos hxy] at hab
          by_cases hyz : y.toNat = z.toNat
          · rw [if_pos hyz] at hbc
            rw [if_pos (hxy.trans hyz)]
            exact ih ys zs hab hbc
          · rw [if_neg hyz] at hbc
            have hlt : y.toNat < z.toNat := of_decide_eq_true hbc
            rw [if_neg (by omega)]
            exact decide_eq_true (by omega)
        · rw [if_neg hxy] at hab
          have hlt : x.toNat < y.toNat := of_decide_eq_true hab
          by_cases hyz : y.toNat = z.toNat
          · rw [if_neg (by omega)]
            exact decide_eq_true (by omega)
          · rw [if_neg hyz] at hbc
            have hlt2 : y.toNat < z.toNat := of_decide_eq_true hbc
            rw [if_neg (by omega)]
            exact decide_eq_true (by omega)

instance {α : Type} (f : α → String) : IsTotal α (strFieldLe f) :=
  ⟨fun a b => by
    unfold strFieldLe strLe
    exact charListLe_total _ _⟩

instance {α : Type} (f : α → String) : IsTrans α (strFieldLe f) :=
  ⟨fun a b c h1 h2 => by
    unfold strFieldLe strLe at h1 h2 ⊢
    exact charListLe_trans _ _ _ h1 h2⟩

instance {α : Type} (f : α → ℚ) (g : α → α → Prop) [IsTotal α g] :
    IsTotal α (lexLe f g) :=
  ⟨fun a b => by
    unfold lexLe
    rcases lt_trichotomy (f a) (f b) with h | h | h
    · exact Or.inl (Or.inl h)
    · rcases total_of g a b with hg | hg
      · exact Or.inl (Or.inr ⟨h, hg⟩)
      · exact Or.inr (Or.inr ⟨h.symm, hg⟩)
    · exact Or.inr (Or.inl h)⟩

instance {α : Type} (f : α → ℚ) (g : α → α → Prop) [IsTrans α g] :
    IsTrans α (lexLe f g) :=
  ⟨fun a b c h1 h2 => by
    unfold lexLe at h1 h2 ⊢
    rcases h1 with h1 | ⟨he1, hg1⟩
    · rcases h2 with h2 | ⟨he2, _⟩
      · exact Or.inl (h1.trans h2)
      · exact Or.inl (he2 ▸ h1)
    · rcases h2 with h2 | ⟨he2, hg2⟩
      · exact Or.inl (he1 ▸ h2)
      · exact Or.inr ⟨he1.trans he2, Trans.trans hg1 hg2⟩⟩

instance : IsTotal DeltaRow deltaAscLe := by
  unfold deltaAscLe
  infer_instance

instance : IsTrans DeltaRow deltaAscLe := by
  unfold deltaAscLe
  infer_instance

instance : IsTotal DeltaRow deltaDescLe := by
  unfold deltaDescLe
  infer_instance

instance : IsTrans DeltaRow deltaDescLe := by
  unfold deltaDescLe
  infer_instance

instance : IsTotal CannibalPage cannPageLe := by
  unfold cannPageLe
  infer_instance

instance : IsTrans CannibalPage cannPageLe := by
  unfold cannPageLe
  infer_instance

instance : IsTotal CannibalItem cannItemLe := by
  unfold cannItemLe
  infer_instance

instance : IsTrans CannibalItem cannItemLe := by
  unfold cannItemLe
  infer_instance

/-! ### Claim C9 -/

theorem sorted_take {α : Type} (r : α → α → Prop) (l : List α)
    (h : List.Sorted r l) (n : ℕ) : List.Sorted r (l.take n) :=
  List.Pairwise.sublist (List.take_sublist n l) h

/-- Claim C9: for TOP_LOSERS_QUERIES the merged delta rows are sorted by
`deltaClicks` ascending with ties broken by query ascending, and for
TOP_WINNERS_QUERIES by `deltaClicks` descending with the same tie-break;
the result's item list is the row-limit prefix of that sorted order. -/
theorem runIntent_topMovers_sorted (fetch : QueryPlan → List RawGscRow)
    (args : ToolArgs) (preset : Preset) (current previous : GscRange)
    (res : V2IntentResult)
    (hres : runIntent fetch args preset current previous = .ok res) :
    (args.intent = .TOP_LOSERS_QUERIES → ∀ l, res.items = .queryRows l →
      l = (List.insertionSort deltaAscLe (mergeDeltas
            (queryRowsOf fetch (rowsPlan current [.query] args.rowLimit .noFilter))
            (queryRowsOf fetch (rowsPlan previous [.query] args.rowLimit .noFilter)))).take
          args.rowLimit ∧
        List.Sorted deltaAscLe l) ∧
    (args.intent = .TOP_WINNERS_QUERIES → ∀ l, res.items = .queryRows l →
      l = (List.insertionSort deltaDescLe (mergeDeltas
            (queryRowsOf fetch (rowsPlan current [.query] args.rowLimit .noFilter))
            (queryRowsOf fetch (rowsPlan previous [.query] args.rowLimit .noFilter)))).take
          args.rowLimit ∧
        List.Sorted deltaDescLe l) := by
  obtain ⟨intent, rowLimit, brandTerms, pageUrl⟩ := args
  constructor
  · rintro rfl l hl
    have hres2 : shapeResult ⟨.TOP_LOSERS_QUERIES, rowLimit, brandTerms, pageUrl⟩
        preset rowLimit current previous
        (queryTotalsOf fetch (totalsPlan current .noFilter))
        (queryTotalsOf fetch (totalsPlan previous .noFilter)) .query_deltas
        (.queryRows ((List.insertionSort deltaAscLe (mergeDeltas
          (queryRowsOf fetch (rowsPlan current [.query] rowLimit .noFilter))
          (queryRowsOf fetch (rowsPlan previous [.query] rowLimit .noFilter)))).take rowLimit))
        none = res := Except.ok.inj hres
    rw [← hres2] at hl
    unfold shapeResult at hl
    set merged := List.insertionSort deltaAscLe (mergeDeltas
      (queryRowsOf fetch (rowsPlan current [.query] rowLimit .noFilter))
      (queryRowsOf fetch (rowsPlan previous [.query] rowLimit .noFilter))) with hmerged
    by_cases hemp : (V2Items.queryRows (merged.take rowLimit)).isEmptyColl = true
    · rw [if_pos hemp] at hl
      have hl2 : V2Items.queryRows ([] : List DeltaRow) = .queryRows l := hl
      have hl3 : l = [] := (V2Items.queryRows.inj hl2).symm
      have htake : merged.take rowLimit = [] := by
        have : (merged.take rowLimit).isEmpty = true := hemp
        exact List.isEmpty_iff.1 this
      rw [hl3, htake]
      exact ⟨rfl, List.sorted_nil⟩
    · rw [if_neg hemp] at hl
      have hl2 : V2Items.queryRows (merged.take rowLimit) = .queryRows l := hl
      have hl3 : l = merged.take rowLimit := (V2Items.queryRows.inj hl2).symm
      rw [hl3]
      exact ⟨rfl, sorted_take _ _ (List.sorted_insertionSort _ _) _⟩
  · rintro rfl l hl
    have hres2 : shapeResult ⟨.TOP_WINNERS_QUERIES, rowLimit, brandTerms, pageUrl⟩
        preset rowLimit current previous
        (queryTotalsOf fetch (totalsPlan current .noFilter))
        (queryTotalsOf fetch (totalsPlan previous .noFilter)) .query_deltas
        (.queryRows ((List.insertionSort deltaDescLe (mergeDeltas
          (queryRowsOf fetch (rowsPlan current [.query] rowLimit .noFilter))
          (queryRowsOf fetch (rowsPlan previous [.query] rowLimit .noFilter)))).take rowLimit))
        none = res := Except.ok.inj hres
    rw [← hres2] at hl
    unfold shapeResult at hl
    set merged := List.insertionSort deltaDescLe (mergeDeltas
      (queryRowsOf fetch (rowsPlan current [.query] rowLimit .noFilter))
      (queryRowsOf fetch (rowsPlan previous [.query] rowLimit .noFilter))) with hmerged
    by_cases hemp : (V2Items.queryRows (merged.take rowLimit)).isEmptyColl = true
    · rw [if_pos hemp] at hl
      have hl2 : V2Items.queryRows ([] : List DeltaRow) = .queryRows l := hl
      have hl3 : l = [] := (V2Items.queryRows.inj hl2).symm
      have htake : merged.take rowLimit = [] := by
        have : (merged.take rowLimit).isEmpty = true := hemp
        exact List.isEmpty_iff.1 this
      rw [hl3, htake]
      exact ⟨rfl, List.sorted_nil⟩
    · rw [if_neg hemp] at hl
      have hl2 : V2Items.queryRows (merged.take rowLimit) = .queryRows l := hl
      have hl3 : l = merged.take rowLimit := (V2Items.queryRows.inj hl2).symm
      rw [hl3]
      exact ⟨rfl, sorted_take _ _ (List.sorted_insertionSort _ _) _⟩

/-- Concrete fetcher for the C9 witness: two queries whose click deltas are
`-20` (query `a`) and `-5` (query `b`). -/
def losersExampleFetch (p : QueryPlan) : List RawGscRow :=
  if p.rangeStart == "c" then
    [⟨some [.str "a"], some (.num 0), none, none, none⟩,
     ⟨some [.str "b"], some (.num 10), none, none, none⟩]
  else if p.rangeStart == "p" then
    [⟨some [.str "a"], some (.num 20), none, none, none⟩,
     ⟨some [.str "b"], some (.num 15), none, none, none⟩]
  else []

/-- The C9 witness result value. -/
def losersExampleResult : V2IntentResult :=
  mkResult ⟨.TOP_LOSERS_QUERIES, 5, [], none⟩ .last28 5 ⟨"c", ""⟩ ⟨"p", ""⟩
    ⟨0, 0, 0, 0⟩ ⟨20, 0, 0, 0⟩ .query_deltas
    (.queryRows
      [⟨"a", 0, 20, -20, 0, 0, 0, 0, 0, 0, 0, 0, 0⟩,
       ⟨"b", 10, 15, -5, 0, 0, 0, 0, 0, 0, 0, 0, 0⟩]) none none

/-- Witness for C9 at the spec's example: of two merged rows with
`deltaClicks = -5` and `-20`, the `-20` row sorts first under
TOP_LOSERS_QUERIES. -/
theorem runIntent_topMovers_sorted_witness :
    runIntent losersExampleFetch ⟨.TOP_LOSERS_QUERIES, 5, [], none⟩ .last28
      ⟨"c", ""⟩ ⟨"p", ""⟩ = .ok losersExampleResult ∧
    losersExampleResult.items = .queryRows
      [⟨"a", 0, 20, -20, 0, 0, 0, 0, 0, 0, 0, 0, 0⟩,
       ⟨"b", 10, 15, -5, 0, 0, 0, 0, 0, 0, 0, 0, 0⟩] ∧
    List.Sorted deltaAscLe
      [⟨"a", 0, 20, -20, 0, 0, 0, 0, 0, 0, 0, 0, 0⟩,
       ⟨"b", 10, 15, -5, 0, 0, 0, 0, 0, 0, 0, 0, 0⟩] ∧
    ([⟨"a", 0, 20, -20, 0, 0, 0, 0, 0, 0, 0, 0, 0⟩,
      ⟨"b", 10, 15, -5, 0, 0, 0, 0, 0, 0, 0, 0, 0⟩] : List DeltaRow).map
        DeltaRow.deltaClicks = [-20, -5] := by
  have h0 : runIntent losersExampleFetch ⟨.TOP_LOSERS_QUERIES, 5, [], none⟩ .last28
      ⟨"c", ""⟩ ⟨"p", ""⟩ =
      .ok (shapeResult ⟨.TOP_LOSERS_QUERIES, 5, [], none⟩ .last28 5 ⟨"c", ""⟩ ⟨"p", ""⟩
        (queryTotalsOf losersExampleFetch (totalsPlan ⟨"c", ""⟩ .noFilter))
        (queryTotalsOf losersExampleFetch (totalsPlan ⟨"p", ""⟩ .noFilter)) .query_deltas
        (.queryRows ((List.insertionSort deltaAscLe (mergeDeltas
          (queryRowsOf losersExampleFetch (rowsPlan ⟨"c", ""⟩ [.query] 5 .noFilter))
          (queryRowsOf losersExampleFetch (rowsPlan ⟨"p", ""⟩ [.query] 5 .noFilter)))).take 5))
        none) := rfl
  have hcr : queryRowsOf losersExampleFetch (rowsPlan ⟨"c", ""⟩ [.query] 5 .noFilter) =
      [⟨["a"], 0, 0, 0, 0⟩, ⟨["b"], 10, 0, 0, 0⟩] := by
    simp [queryRowsOf, rowsPlan, losersExampleFetch, normalizeGscRow, numOrZero, strOnly,
      List.filterMap_cons, List.filterMap_nil]
  have hpr : queryRowsOf losersExampleFetch (rowsPlan ⟨"p", ""⟩ [.query] 5 .noFilter) =
      [⟨["a"], 20, 0, 0, 0⟩, ⟨["b"], 15, 0, 0, 0⟩] := by
    simp [queryRowsOf, rowsPlan, losersExampleFetch, normalizeGscRow, numOrZero, strOnly,
      List.filterMap_cons, List.filterMap_nil]
  have hmerge : mergeDeltas [⟨["a"], 0, 0, 0, 0⟩, ⟨["b"], 10, 0, 0, 0⟩]
      [⟨["a"], 20, 0, 0, 0⟩, ⟨["b"], 15, 0, 0, 0⟩] =
      [⟨"a", 0, 20, -20, 0, 0, 0, 0, 0, 0, 0, 0, 0⟩,
       ⟨"b", 10, 15, -5, 0, 0, 0, 0, 0, 0, 0, 0, 0⟩] := by
    simp [mergeDeltas, mergeKeys, mapKeys, insertionDedup, insertionDedupAux,
      lastWithKey, firstKey, mkDeltaRow, List.filter_cons, List.filter_nil,
      List.getLast?_cons_cons, List.getLast?_singleton, Option.elim, List.map_cons,
      List.map_nil]
    norm_num
  have hsort : List.insertionSort deltaAscLe
      [⟨"a", 0, 20, -20, 0, 0, 0, 0, 0, 0, 0, 0, 0⟩,
       ⟨"b", 10, 15, -5, 0, 0, 0, 0, 0, 0, 0, 0, 0⟩] =
      [⟨"a", 0, 20, -20, 0, 0, 0, 0, 0, 0, 0, 0, 0⟩,
       ⟨"b", 10, 15, -5, 0, 0, 0, 0, 0, 0, 0, 0, 0⟩] := by
    norm_num [List.insertionSort, List.orderedInsert, deltaAscLe, lexLe]
  have htc : queryTotalsOf losersExampleFetch (totalsPlan ⟨"c", ""⟩ .noFilter) =
      ⟨0, 0, 0, 0⟩ := by
    simp [queryTotalsOf, totalsPlan, losersExampleFetch, queryTotalsOfRows, rawNumOrZero,
      numOrZero, List.head?]
  have htp : queryTotalsOf losersExampleFetch (totalsPlan ⟨"p", ""⟩ .noFilter) =
      ⟨20, 0, 0, 0⟩ := by
    simp [queryTotalsOf, totalsPlan, losersExampleFetch, queryTotalsOfRows, rawNumOrZero,
      numOrZero, List.head?]
  have hres : runIntent losersExampleFetch ⟨.TOP_LOSERS_QUERIES, 5, [], none⟩ .last28
      ⟨"c", ""⟩ ⟨"p", ""⟩ = .ok losersExampleResult := by
    rw [h0, hcr, hpr, hmerge, hsort, htc, htp]
    simp [shapeResult, mkResult, V2Items.isEmptyColl, List.take, losersExampleResult]
  have hsorted := ((runIntent_topMovers_sorted losersExampleFetch
    ⟨.TOP_LOSERS_QUERIES, 5, [], none⟩ .last28 ⟨"c", ""⟩ ⟨"p", ""⟩
    losersExampleResult hres).1 rfl
    [⟨"a", 0, 20, -20, 0, 0, 0, 0, 0, 0, 0, 0, 0⟩,
     ⟨"b", 10, 15, -5, 0, 0, 0, 0, 0, 0, 0, 0, 0⟩] rfl).2
  exact ⟨hres, rfl, hsorted, by norm_num⟩

/-! ### Claim C8 -/

theorem toAgg_pageCount (pages : List CannibalPage) :
    (toAgg pages).pageCount = pages.length :=
  (List.perm_insertionSort cannPageLe pages).length_eq

theorem toAgg_totalClicks (pages : List CannibalPage) :
    (toAgg pages).totalClicks =
      ((List.insertionSort cannPageLe pages).map CannibalPage.clicks).sum := rfl

theorem toAgg_concentration_eq (pages : List CannibalPage) :
    (toAgg pages).concentration =
      (if 0 < (toAgg pages).totalClicks then
        ((List.insertionSort cannPageLe pages).head?.elim 0 CannibalPage.clicks) /
          (toAgg pages).totalClicks
      else 1) := rfl

theorem toAgg_top (pages : List CannibalPage) (h : 0 < (toAgg pages).totalClicks) :
    ∃ top ∈ pages, (toAgg pages).concentration = top.clicks / (toAgg pages).totalClicks ∧
      ∀ p ∈ pages, p.clicks ≤ top.clicks := by
  cases hsrt : List.insertionSort cannPageLe pages with
  | nil =>
    exfalso
    have : (toAgg pages).totalClicks = 0 := by
      rw [toAgg_totalClicks, hsrt]
      rfl
    rw [this] at h
    exact lt_irrefl 0 h
  | cons x rest =>
    have hx : x ∈ pages := by
      rw [← List.mem_insertionSort cannPageLe, hsrt]
      exact List.mem_cons_self x rest
    have hsorted : List.Sorted cannPageLe (x :: rest) := by
      rw [← hsrt]
      exact List.sorted_insertionSort cannPageLe pages
    have hhead : ∀ b ∈ rest, cannPageLe x b := (List.sorted_cons.1 hsorted).1
    refine ⟨x, hx, ?_, ?_⟩
    · rw [toAgg_concentration_eq, if_pos h, hsrt]
      rfl
    · intro p hp
      have hp2 : p ∈ x :: rest := by
        rw [← hsrt, List.mem_insertionSort]
        exact hp
      rcases List.mem_cons.1 hp2 with rfl | hp3
      · exact le_refl _
      · rcases hhead p hp3 with hlt | ⟨heq, _⟩
        · have hlt2 : -x.clicks < -p.clicks := hlt
          linarith
        · have : -x.clicks = -p.clicks := heq
          linarith
    

theorem mkCannibalItem_query (c p : List NormalizedGscRow) (q : String) :
    (mkCannibalItem c p q).query = q := rfl

theorem mkCannibalItem_current (c p : List NormalizedGscRow) (q : String) :
    (mkCannibalItem c p q).current = toAgg (pagesFor c q) := rfl

theorem pagesFor_ne_nil_mem {c : List NormalizedGscRow} {q : String}
    (h : pagesFor c q ≠ []) : q ∈ cannQueryList c := by
  unfold pagesFor at h
  rcases List.exists_mem_of_ne_nil _ h with ⟨pg, hpg⟩
  rcases List.mem_map.1 hpg with ⟨r, hr, _⟩
  rcases List.mem_filter.1 hr with ⟨hr2, hq⟩
  rcases List.mem_filter.1 hr2 with ⟨hr3, hok⟩
  unfold cannQueryList
  rw [mem_insertionDedup]
  refine List.mem_map.2 ⟨r, List.mem_filter.2 ⟨hr3, hok⟩, ?_⟩
  exact eq_of_beq hq

theorem mem_cannibalizationItems (c p : List NormalizedGscRow) (it : CannibalItem) :
    it ∈ cannibalizationItems c p ↔
      ((∃ q ∈ insertionDedup (cannQueryList c ++ cannQueryList p),
        it = mkCannibalItem c p q) ∧ cannKeep it) := by
  unfold cannibalizationItems
  rw [List.mem_insertionSort, List.mem_filter]
  simp only [List.mem_map, decide_eq_true_eq]
  constructor
  · rintro ⟨⟨q, hq, rfl⟩, hkeep⟩
    exact ⟨⟨q, hq, rfl⟩, hkeep⟩
  · rintro ⟨⟨q, hq, rfl⟩, hkeep⟩
    exact ⟨⟨q, hq, rfl⟩, hkeep⟩

/-- Claim C8: for CANNIBALIZATION_QUERIES, rows are aggregated per query
over (query, page) pairs; a query appears in the output iff its
current-period aggregate has `pageCount >= 2`, `totalClicks > 0` and
`concentration < 0.8`, where the concentration is the clicks of the single
largest page divided by the total clicks; the kept queries are sorted by
current total clicks descending, ties by concentration ascending, then by
query ascending; and the result items of `runIntent` are the row-limit
prefix of that list. -/
theorem cannibalization_queries_spec :
    (∀ currRows prevRows : List NormalizedGscRow,
      (∀ q : String,
        (∃ it ∈ cannibalizationItems currRows prevRows, it.query = q) ↔
          cannKeep (mkCannibalItem currRows prevRows q)) ∧
      (∀ it ∈ cannibalizationItems currRows prevRows,
        it = mkCannibalItem currRows prevRows it.query) ∧
      ((cannibalizationItems currRows prevRows).map CannibalItem.query).Nodup ∧
      List.Sorted cannItemLe (cannibalizationItems currRows prevRows) ∧
      (∀ it ∈ cannibalizationItems currRows prevRows,
        0 < it.current.totalClicks ∧
        ∃ top ∈ pagesFor currRows it.query,
          it.current.concentration = top.clicks / it.current.totalClicks ∧
          ∀ pg ∈ pagesFor currRows it.query, pg.clicks ≤ top.clicks)) ∧
    (∀ (fetch : QueryPlan → List RawGscRow) (args : ToolArgs) (preset : Preset)
      (current previous : GscRange) (res : V2IntentResult),
      args.intent = .CANNIBALIZATION_QUERIES →
      runIntent fetch args preset current previous = .ok res →
      ∀ l, res.items = .cannibal l →
        l = (cannibalizationItems
              (queryRowsOf fetch (rowsPlan current [.query, .page] args.rowLimit .noFilter))
              (queryRowsOf fetch (rowsPlan previous [.query, .page] args.rowLimit .noFilter))).take
            args.rowLimit) := by
  constructor
  · intro currRows prevRows
    refine ⟨?_, ?_, ?_, ?_, ?_⟩
    · intro q
      constructor
      · rintro ⟨it, hit, rfl⟩
        obtain ⟨⟨q2, _, rfl⟩, hkeep⟩ := (mem_cannibalizationItems _ _ _).1 hit
        exact hkeep
      · intro hkeep
        refine ⟨mkCannibalItem currRows prevRows q, ?_, rfl⟩
        rw [mem_cannibalizationItems]
        refine ⟨⟨q, ?_, rfl⟩, hkeep⟩
        rw [mem_insertionDedup, List.mem_append]
        left
        apply pagesFor_ne_nil_mem
        intro hnil
        have h2 := hkeep.1
        rw [mkCannibalItem_current, toAgg_pageCount, hnil] at h2
        exact absurd h2 (by norm_num)
    · intro it hit
      obtain ⟨⟨q, _, rfl⟩, _⟩ := (mem_cannibalizationItems _ _ _).1 hit
      rfl
    · have hperm : List.Perm ((cannibalizationItems currRows prevRows).map CannibalItem.query)
        ((((insertionDedup (cannQueryList currRows ++ cannQueryList prevRows)).map
          (mkCannibalItem currRows prevRows)).filter
            (fun x => decide (cannKeep x))).map CannibalItem.query) :=
        (List.perm_insertionSort _ _).map _
      rw [List.Perm.nodup_iff hperm]
      have hsub : List.Sublist
          ((((insertionDedup (cannQueryList currRows ++ cannQueryList prevRows)).map
            (mkCannibalItem currRows prevRows)).filter
              (fun x => decide (cannKeep x))).map CannibalItem.query)
          (((insertionDedup (cannQueryList currRows ++ cannQueryList prevRows)).map
            (mkCannibalItem currRows prevRows)).map CannibalItem.query) :=
        (List.filter_sublist _).map _
      have hid : ((insertionDedup (cannQueryList currRows ++ cannQueryList prevRows)).map
          (mkCannibalItem currRows prevRows)).map CannibalItem.query =
          insertionDedup (cannQueryList currRows ++ cannQueryList prevRows) := by
        rw [List.map_map]
        have : ∀ q ∈ insertionDedup (cannQueryList currRows ++ cannQueryList prevRows),
            (CannibalItem.query ∘ mkCannibalItem currRows prevRows) q = id q :=
          fun _ _ => rfl
        rw [List.map_congr_left this, List.map_id]
      exact List.Nodup.sublist (hid ▸ hsub) (nodup_insertionDedup _)
    · exact List.sorted_insertionSort _ _
    · intro it hit
      obtain ⟨⟨q, _, rfl⟩, hkeep⟩ := (mem_cannibalizationItems _ _ _).1 hit
      have hpos : 0 < (mkCannibalItem currRows prevRows q).current.totalClicks := hkeep.2.1
      refine ⟨hpos, ?_⟩
      rw [mkCannibalItem_query, mkCannibalItem_current]
      rw [mkCannibalItem_current] at hpos
      exact toAgg_top _ hpos
  · intro fetch args preset current previous res hι hres l hl
    obtain ⟨intent, rowLimit, brandTerms, pageUrl⟩ := args
    cases hι
    have hres2 : shapeResult ⟨.CANNIBALIZATION_QUERIES, rowLimit, brandTerms, pageUrl⟩
        preset rowLimit current previous
        (queryTotalsOf fetch (totalsPlan current .noFilter))
        (queryTotalsOf fetch (totalsPlan previous .noFilter)) .query_page_cannibalization
        (.cannibal ((cannibalizationItems
          (queryRowsOf fetch (rowsPlan current [.query, .page] rowLimit .noFilter))
          (queryRowsOf fetch (rowsPlan previous [.query, .page] rowLimit .noFilter))).take
            rowLimit))
        none = res := Except.ok.inj hres
    rw [← hres2] at hl
    unfold shapeResult at hl
    set taken := (cannibalizationItems
      (queryRowsOf fetch (rowsPlan current [.query, .page] rowLimit .noFilter))
      (queryRowsOf fetch (rowsPlan previous [.query, .page] rowLimit .noFilter))).take
        rowLimit with htaken
    by_cases hemp : (V2Items.cannibal taken).isEmptyColl = true
    · rw [if_pos hemp] at hl
      have hl2 : V2Items.queryRows ([] : List DeltaRow) = .cannibal l := hl
      exact absurd hl2 (by intro hcontra; exact V2Items.noConfusion hcontra)
    · rw [if_neg hemp] at hl
      exact (V2Items.cannibal.inj hl).symm

/-- Concrete fetcher for the C8 witness: one query on two pages in the
current period, nothing in the previous period. -/
def cannExampleFetch (p : QueryPlan) : List RawGscRow :=
  if p.rangeStart == "c" then
    [⟨some [.str "q1", .str "p1"], some (.num 3), none, none, none⟩,
     ⟨some [.str "q1", .str "p2"], some (.num 2), none, none, none⟩]
  else []

/-- The single cannibalization item the C8 witness produces. -/
def cannExampleItem : CannibalItem :=
  ⟨"q1", ⟨2, 5, 0, 3 / 5, [⟨"p1", 3, 0, 0, 0⟩, ⟨"p2", 2, 0, 0, 0⟩]⟩,
    ⟨0, 0, 0, 1, []⟩, 5, 0, -(2 / 5)⟩

/-- The full intent result of the C8 witness run. -/
def cannExampleResult : V2IntentResult :=
  mkResult ⟨.CANNIBALIZATION_QUERIES, 5, [], none⟩ .last28 5 ⟨"c", ""⟩ ⟨"p", ""⟩
    ⟨3, 0, 0, 0⟩ ⟨0, 0, 0, 0⟩ .query_page_cannibalization
    (.cannibal [cannExampleItem]) none none

theorem cannibalization_queries_spec_witness :
    runIntent cannExampleFetch ⟨.CANNIBALIZATION_QUERIES, 5, [], none⟩ .last28 ⟨"c", ""⟩
        ⟨"p", ""⟩ = .ok cannExampleResult ∧
    cannExampleResult.items = .cannibal [cannExampleItem] ∧
    [cannExampleItem] =
      (cannibalizationItems
        (queryRowsOf cannExampleFetch (rowsPlan ⟨"c", ""⟩ [.query, .page] 5 .noFilter))
        (queryRowsOf cannExampleFetch (rowsPlan ⟨"p", ""⟩ [.query, .page] 5 .noFilter))).take
          5 ∧
    (∃ it ∈ cannibalizationItems
        (queryRowsOf cannExampleFetch (rowsPlan ⟨"c", ""⟩ [.query, .page] 5 .noFilter))
        (queryRowsOf cannExampleFetch (rowsPlan ⟨"p", ""⟩ [.query, .page] 5 .noFilter)),
      it.query = "q1") := by
  have hcr : queryRowsOf cannExampleFetch (rowsPlan ⟨"c", ""⟩ [.query, .page] 5 .noFilter) =
      [⟨["q1", "p1"], 3, 0, 0, 0⟩, ⟨["q1", "p2"], 2, 0, 0, 0⟩] := by
    simp [queryRowsOf, rowsPlan, cannExampleFetch, normalizeGscRow, numOrZero, strOnly,
      List.filterMap_cons, List.filterMap_nil]
  have hpr : queryRowsOf cannExampleFetch (rowsPlan ⟨"p", ""⟩ [.query, .page] 5 .noFilter) =
      [] := by
    simp [queryRowsOf, rowsPlan, cannExampleFetch, List.filterMap_nil]
  have hpagesC : pagesFor [⟨["q1", "p1"], 3, 0, 0, 0⟩, ⟨["q1", "p2"], 2, 0, 0, 0⟩] "q1" =
      [⟨"p1", 3, 0, 0, 0⟩, ⟨"p2", 2, 0, 0, 0⟩] := by
    simp [pagesFor, cannRowOk, cannQuery, cannPage, List.filter_cons, List.filter_nil,
      List.map_cons, List.map_nil]
  have hsortp : List.insertionSort cannPageLe [⟨"p1", 3, 0, 0, 0⟩, ⟨"p2", 2, 0, 0, 0⟩] =
      [(⟨"p1", 3, 0, 0, 0⟩ : CannibalPage), ⟨"p2", 2, 0, 0, 0⟩] := by
    norm_num [List.insertionSort, List.orderedInsert, cannPageLe, lexLe]
  have htoAggC : toAgg [⟨"p1", 3, 0, 0, 0⟩, ⟨"p2", 2, 0, 0, 0⟩] =
      ⟨2, 5, 0, 3 / 5, [⟨"p1", 3, 0, 0, 0⟩, ⟨"p2", 2, 0, 0, 0⟩]⟩ := by
    simp only [toAgg, hsortp]
    norm_num [List.map_cons, List.map_nil, List.sum_cons, List.sum_nil, List.head?,
      Option.elim, List.take]
  have htoAggP : toAgg ([] : List CannibalPage) = ⟨0, 0, 0, 1, []⟩ := by
    simp [toAgg, List.insertionSort]
  have hmk : mkCannibalItem [⟨["q1", "p1"], 3, 0, 0, 0⟩, ⟨["q1", "p2"], 2, 0, 0, 0⟩] [] "q1" =
      cannExampleItem := by
    have hpp : pagesFor ([] : List NormalizedGscRow) "q1" = [] := rfl
    simp only [mkCannibalItem, hpagesC, hpp, htoAggC, htoAggP]
    simp [cannExampleItem]
    norm_num
  have hcann : cannibalizationItems [⟨["q1", "p1"], 3, 0, 0, 0⟩, ⟨["q1", "p2"], 2, 0, 0, 0⟩]
      [] = [cannExampleItem] := by
    have hq : insertionDedup
        (cannQueryList [⟨["q1", "p1"], 3, 0, 0, 0⟩, ⟨["q1", "p2"], 2, 0, 0, 0⟩] ++
          cannQueryList []) = ["q1"] := by
      simp [cannQueryList, insertionDedup, insertionDedupAux, cannRowOk, cannQuery, cannPage,
        List.filter_cons, List.filter_nil, List.map_cons, List.map_nil]
    simp only [cannibalizationItems, hq, List.map_cons, List.map_nil, hmk]
    simp [List.filter_cons, List.filter_nil, List.insertionSort, List.orderedInsert,
      cannKeep, cannExampleItem]
    norm_num
  have htc : queryTotalsOf cannExampleFetch (totalsPlan ⟨"c", ""⟩ .noFilter) =
      ⟨3, 0, 0, 0⟩ := by
    simp [queryTotalsOf, totalsPlan, cannExampleFetch, queryTotalsOfRows, rawNumOrZero,
      numOrZero, List.head?]
  have htp : queryTotalsOf cannExampleFetch (totalsPlan ⟨"p", ""⟩ .noFilter) =
      ⟨0, 0, 0, 0⟩ := by
    simp [queryTotalsOf, totalsPlan, cannExampleFetch, queryTotalsOfRows, rawNumOrZero,
      numOrZero, List.head?]
  have h0 : runIntent cannExampleFetch ⟨.CANNIBALIZATION_QUERIES, 5, [], none⟩ .last28
      ⟨"c", ""⟩ ⟨"p", ""⟩ =
      .ok (shapeResult ⟨.CANNIBALIZATION_QUERIES, 5, [], none⟩ .last28 5 ⟨"c", ""⟩ ⟨"p", ""⟩
        (queryTotalsOf cannExampleFetch (totalsPlan ⟨"c", ""⟩ .noFilter))
        (queryTotalsOf cannExampleFetch (totalsPlan ⟨"p", ""⟩ .noFilter))
        .query_page_cannibalization
        (.cannibal ((cannibalizationItems
          (queryRowsOf cannExampleFetch (rowsPlan ⟨"c", ""⟩ [.query, .page] 5 .noFilter))
          (queryRowsOf cannExampleFetch (rowsPlan ⟨"p", ""⟩ [.query, .page] 5 .noFilter))).take
            5))
        none) := rfl
  have hres : runIntent cannExampleFetch ⟨.CANNIBALIZATION_QUERIES, 5, [], none⟩ .last28
      ⟨"c", ""⟩ ⟨"p", ""⟩ = .ok cannExampleResult := by
    rw [h0, hcr, hpr, hcann, htc, htp]
    simp [shapeResult, mkResult, V2Items.isEmptyColl, List.take, cannExampleResult]
  refine ⟨hres, rfl, ?_, ?_⟩
  · exact cannibalization_queries_spec.2 cannExampleFetch
      ⟨.CANNIBALIZATION_QUERIES, 5, [], none⟩ .last28 ⟨"c", ""⟩ ⟨"p", ""⟩ cannExampleResult
      rfl hres [cannExampleItem] rfl
  · apply ((cannibalization_queries_spec.1 _ _).1 "q1").2
    rw [hcr, hpr, hmk]
    norm_num [cannKeep, cannExampleItem]

/-! ### Claim C3 -/

theorem shapeResult_kind (args : ToolArgs) (preset : Preset) (rowLimit : ℕ)
    (current previous : GscRange) (tc tp : GscTotals) (k : V2Kind) (items : V2Items)
    (ctxPage : Option String) (hk : k ≠ V2Kind.empty) :
    ((shapeResult args preset rowLimit current previous tc tp k items ctxPage).kind =
        .empty ↔ items.isEmptyColl = true) ∧
    ((shapeResult args preset rowLimit current previous tc tp k items ctxPage).items.isEmptyColl =
        items.isEmptyColl) ∧
    ((shapeResult args preset rowLimit current previous tc tp k items ctxPage).kind = .empty →
      (shapeResult args preset rowLimit current previous tc tp k items ctxPage).items =
        .queryRows []) ∧
    (shapeResult args preset rowLimit current previous tc tp k items ctxPage).totalsCurrent =
      tc ∧
    (shapeResult args preset rowLimit current previous tc tp k items ctxPage).totalsPrevious =
      tp := by
  unfold shapeResult
  by_cases h : items.isEmptyColl = true
  · rw [if_pos h]
    refine ⟨by simp [mkResult, h], ?_, fun _ => rfl, rfl, rfl⟩
    rw [h]
    rfl
  · rw [if_neg h]
    refine ⟨?_, rfl, ?_, rfl, rfl⟩
    · constructor
      · intro hke
        exact absurd hke hk
      · intro he
        exact absurd he h
    · intro hke
      exact absurd hke hk

theorem shapeResult_res {args : ToolArgs} {preset : Preset} {rowLimit : ℕ}
    {current previous : GscRange} {tc tp : GscTotals} {k : V2Kind} {items : V2Items}
    {ctxPage : Option String} {res : V2IntentResult}
    (heq : shapeResult args preset rowLimit current previous tc tp k items ctxPage = res)
    (hk : k ≠ V2Kind.empty) :
    (res.kind = .empty ↔ res.items.isEmptyColl = true) ∧
    (res.kind = .empty → res.items = .queryRows []) ∧
    res.totalsCurrent = tc ∧ res.totalsPrevious = tp := by
  obtain ⟨h1, h2, h3, h4, h5⟩ :=
    shapeResult_kind args preset rowLimit current previous tc tp k items ctxPage hk
  rw [heq] at h1 h2 h3 h4 h5
  rw [← h2] at h1
  exact ⟨h1, h3, h4, h5⟩

/-- Claim C3: for the nine list-shaped intents, the result has
`kind = "empty"` exactly when the computed item collection is empty, in
which case `items` is the empty array, and the totals fields are populated
from the totals fetches (the range-wide no-filter totals, except for the
page drilldown which uses page-filtered totals); BRAND_VS_NONBRAND however
never degrades to `kind = "empty"`: it always returns
`kind = "brand_vs_nonbrand"` with its nested structure, even when all its
row lists are empty. -/
theorem runIntent_empty_degradation :
    (∀ (fetch : QueryPlan → List RawGscRow) (args : ToolArgs) (preset : Preset)
      (current previous : GscRange) (res : V2IntentResult),
      runIntent fetch args preset current previous = .ok res →
      args.intent ≠ .BRAND_VS_NONBRAND →
      ((res.kind = .empty ↔ res.items.isEmptyColl = true) ∧
       (res.kind = .empty → res.items = .queryRows []) ∧
       (args.intent = .DRILLDOWN_PAGE_TO_QUERIES →
         res.totalsCurrent = queryTotalsOf fetch
           (totalsPlan current (.pageEquals (jsTrim (args.pageUrl.getD "")))) ∧
         res.totalsPrevious = queryTotalsOf fetch
           (totalsPlan previous (.pageEquals (jsTrim (args.pageUrl.getD ""))))) ∧
       (args.intent ≠ .DRILLDOWN_PAGE_TO_QUERIES →
         res.totalsCurrent = queryTotalsOf fetch (totalsPlan current .noFilter) ∧
         res.totalsPrevious = queryTotalsOf fetch (totalsPlan previous .noFilter)))) ∧
    (∀ (fetch : QueryPlan → List RawGscRow) (args : ToolArgs) (preset : Preset)
      (current previous : GscRange) (res : V2IntentResult),
      args.intent = .BRAND_VS_NONBRAND →
      runIntent fetch args preset current previous = .ok res →
      (res.kind = .brand_vs_nonbrand ∧
       (∃ b : BrandItems, res.items = .brand b) ∧
       res.totalsCurrent = queryTotalsOf fetch (totalsPlan current .noFilter) ∧
       res.totalsPrevious = queryTotalsOf fetch (totalsPlan previous .noFilter))) := by
  constructor
  · intro fetch args preset current previous res hres hnb
    obtain ⟨intent, rowLimit, brandTerms, pageUrl⟩ := args
    cases intent
    case BRAND_VS_NONBRAND => exact absurd rfl hnb
    case DRILLDOWN_PAGE_TO_QUERIES =>
      have hres2 : (if jsTrim (pageUrl.getD "") = "" then
          (.error "DRILLDOWN_PAGE_TO_QUERIES requires pageUrl." :
            Except String V2IntentResult)
        else
          .ok (shapeResult ⟨.DRILLDOWN_PAGE_TO_QUERIES, rowLimit, brandTerms, pageUrl⟩
            preset rowLimit current previous
            (queryTotalsOf fetch
              (totalsPlan current (.pageEquals (jsTrim (pageUrl.getD "")))))
            (queryTotalsOf fetch
              (totalsPlan previous (.pageEquals (jsTrim (pageUrl.getD "")))))
            .page_drilldown
            (.queryRows ((List.insertionSort drilldownLe (mergeDeltas
              (queryRowsOf fetch (rowsPlan current [.query] rowLimit
                (.pageEquals (jsTrim (pageUrl.getD "")))))
              (queryRowsOf fetch (rowsPlan previous [.query] rowLimit
                (.pageEquals (jsTrim (pageUrl.getD ""))))))).take rowLimit))
            (some (jsTrim (pageUrl.getD ""))))) = Except.ok res := hres
      split at hres2
      · exact absurd hres2 (by intro hcontra; exact Except.noConfusion hcontra)
      · obtain ⟨h1, h3, h4, h5⟩ := shapeResult_res (Except.ok.inj hres2)
          (by intro hcontra; exact V2Kind.noConfusion hcontra)
        refine ⟨h1, h3, fun _ => ⟨h4, h5⟩, ?_⟩
        intro hcontra
        exact absurd rfl hcontra
    all_goals {
      obtain ⟨h1, h3, h4, h5⟩ := shapeResult_res (Except.ok.inj hres)
        (by intro hcontra; exact V2Kind.noConfusion hcontra)
      refine ⟨h1, h3, ?_, fun _ => ⟨h4, h5⟩⟩
      intro hcontra
      exact absurd hcontra (by intro hc; exact Intent.noConfusion hc)
    }
  · intro fetch args preset current previous res hι hres
    obtain ⟨intent, rowLimit, brandTerms, pageUrl⟩ := args
    cases hι
    have hres2 : (if ((brandTerms.map jsTrim).filter (fun t => t ≠ "")).isEmpty then
        (.error "BRAND_VS_NONBRAND requires brandTerms (string[])." :
          Except String V2IntentResult)
      else
        .ok (mkResult ⟨.BRAND_VS_NONBRAND, rowLimit, brandTerms, pageUrl⟩ preset rowLimit
          current previous
          (queryTotalsOf fetch (totalsPlan current .noFilter))
          (queryTotalsOf fetch (totalsPlan previous .noFilter))
          .brand_vs_nonbrand
          (.brand ⟨(brandTerms.map jsTrim).filter (fun t => t ≠ ""),
            ⟨queryTotalsOf fetch (totalsPlan current
                (.brandContainsAny ((brandTerms.map jsTrim).filter (fun t => t ≠ "")))),
              queryTotalsOf fetch (totalsPlan previous
                (.brandContainsAny ((brandTerms.map jsTrim).filter (fun t => t ≠ "")))),
              (mergeDeltas
                (queryRowsOf fetch (rowsPlan current [.query] (min rowLimit 250)
                  (.brandContainsAny ((brandTerms.map jsTrim).filter (fun t => t ≠ "")))))
                (queryRowsOf fetch (rowsPlan previous [.query] (min rowLimit 250)
                  (.brandContainsAny
                    ((brandTerms.map jsTrim).filter (fun t => t ≠ "")))))).take
                (min rowLimit 250)⟩,
            ⟨queryTotalsOf fetch (totalsPlan current
                (.brandContainsNone ((brandTerms.map jsTrim).filter (fun t => t ≠ "")))),
              queryTotalsOf fetch (totalsPlan previous
                (.brandContainsNone ((brandTerms.map jsTrim).filter (fun t => t ≠ "")))),
              (mergeDeltas
                (queryRowsOf fetch (rowsPlan current [.query] (min rowLimit 250)
                  (.brandContainsNone ((brandTerms.map jsTrim).filter (fun t => t ≠ "")))))
                (queryRowsOf fetch (rowsPlan previous [.query] (min rowLimit 250)
                  (.brandContainsNone
                    ((brandTerms.map jsTrim).filter (fun t => t ≠ "")))))).take
                (min rowLimit 250)⟩⟩)
          none (some ((brandTerms.map jsTrim).filter (fun t => t ≠ ""))))) =
        Except.ok res := hres
    split at hres2
    · exact absurd hres2 (by intro hcontra; exact Except.noConfusion hcontra)
    · have heq := Except.ok.inj hres2
      rw [← heq]
      exact ⟨rfl, ⟨_, rfl⟩, rfl, rfl⟩

/-- C3 counterexample: with zero fetched rows, BRAND_VS_NONBRAND does not
degrade to `kind = "empty"`; it returns `kind = "brand_vs_nonbrand"` with
empty nested row lists. -/
theorem intent_empty_claim_counterexample :
    runIntent (fun _ => []) ⟨.BRAND_VS_NONBRAND, 5, ["acme"], none⟩ .last28 ⟨"c", ""⟩
        ⟨"p", ""⟩ =
      .ok (mkResult ⟨.BRAND_VS_NONBRAND, 5, ["acme"], none⟩ .last28 5 ⟨"c", ""⟩ ⟨"p", ""⟩
        ⟨0, 0, 0, 0⟩ ⟨0, 0, 0, 0⟩ .brand_vs_nonbrand
        (.brand ⟨["acme"], ⟨⟨0, 0, 0, 0⟩, ⟨0, 0, 0, 0⟩, []⟩,
          ⟨⟨0, 0, 0, 0⟩, ⟨0, 0, 0, 0⟩, []⟩⟩)
        none (some ["acme"])) ∧
    V2Kind.brand_vs_nonbrand ≠ V2Kind.empty :=
  ⟨rfl, fun h => V2Kind.noConfusion h⟩

theorem runIntent_empty_degradation_witness :
    ∃ res, runIntent (fun _ => []) ⟨.TOP_WINNERS_QUERIES, 5, [], none⟩ .last28 ⟨"c", ""⟩
        ⟨"p", ""⟩ = .ok res ∧
      res.kind = .empty ∧ res.items = .queryRows [] ∧
      res.totalsCurrent = queryTotalsOf (fun _ => []) (totalsPlan ⟨"c", ""⟩ .noFilter) ∧
      res.totalsPrevious = queryTotalsOf (fun _ => []) (totalsPlan ⟨"p", ""⟩ .noFilter) := by
  have hres : runIntent (fun _ => []) ⟨.TOP_WINNERS_QUERIES, 5, [], none⟩ .last28 ⟨"c", ""⟩
      ⟨"p", ""⟩ =
      .ok (mkResult ⟨.TOP_WINNERS_QUERIES, 5, [], none⟩ .last28 5 ⟨"c", ""⟩ ⟨"p", ""⟩
        ⟨0, 0, 0, 0⟩ ⟨0, 0, 0, 0⟩ .empty (.queryRows []) none none) := rfl
  obtain ⟨h1, h2, h3, h4⟩ := runIntent_empty_degradation.1 (fun _ => [])
    ⟨.TOP_WINNERS_QUERIES, 5, [], none⟩ .last28 ⟨"c", ""⟩ ⟨"p", ""⟩ _ hres
    (by intro h; exact Intent.noConfusion h)
  have hknd := h1.2 rfl
  exact ⟨_, hres, hknd, h2 hknd,
    (h4 (by intro h; exact Intent.noConfusion h)).1,
    (h4 (by intro h; exact Intent.noConfusion h)).2⟩

/-! ### Claim C7 -/

theorem buildV2Answer_confidence_eq (u s : String) (preset : Preset)
    (io : Option Intent) (g : Option V2GscData) :
    (buildV2Answer u s preset io g).confidence =
      (match primaryResult ((g.map V2GscData.results).getD []) with
       | some pr => chooseConfidence
           (((primaryResult ((g.map V2GscData.results).getD [])).map
             (fun p => decide (p.kind ≠ .empty))).getD false)
           pr.totalsCurrent.impressions pr.totalsPrevious.impressions
           (itemsCountOf ((g.map V2GscData.results).getD []))
       | none =>
         ⟨.Medium, "No comparison totals were available, so guidance is directional."⟩) :=
  rfl

/-- Claim C7: when some result has a non-empty kind (`hasData`) and the
total item count is positive, the confidence is chosen from
`min(currentImpressions, previousImpressions)` of the primary result:
High at >= 5000, Medium at >= 500, else Low, each with its fixed sentence;
`hasData = false` or zero items gives Low with the no-data sentence; but
when there is no primary result at all (no data pulled), `buildV2Answer`
instead uses a fixed Medium fallback, not Low. -/
theorem buildV2Answer_confidence_spec :
    (∀ (hasData : Bool) (c p : ℚ) (n : ℕ),
      ((hasData = false ∨ n = 0) →
        chooseConfidence hasData c p n =
          ⟨.Low,
            "No (or too little) Search Console data was returned for the selected ranges."⟩) ∧
      (hasData = true → 0 < n → 5000 ≤ min c p →
        chooseConfidence hasData c p n =
          ⟨.High,
            "The comparison is based on substantial impression volume across both periods."⟩) ∧
      (hasData = true → 0 < n → min c p < 5000 → 500 ≤ min c p →
        chooseConfidence hasData c p n =
          ⟨.Medium,
            "There’s enough volume to see directionally useful trends, but smaller moves may be noisy."⟩) ∧
      (hasData = true → 0 < n → min c p < 500 →
        chooseConfidence hasData c p n =
          ⟨.Low,
            "Low impression volume makes the deltas volatile and harder to interpret confidently."⟩)) ∧
    (∀ (u s : String) (preset : Preset) (io : Option Intent) (g : Option V2GscData),
      (primaryResult ((g.map V2GscData.results).getD []) = none →
        (buildV2Answer u s preset io g).confidence =
          ⟨.Medium, "No comparison totals were available, so guidance is directional."⟩) ∧
      (∀ pr, primaryResult ((g.map V2GscData.results).getD []) = some pr →
        (buildV2Answer u s preset io g).confidence =
          chooseConfidence (decide (pr.kind ≠ V2Kind.empty))
            pr.totalsCurrent.impressions pr.totalsPrevious.impressions
            (itemsCountOf ((g.map V2GscData.results).getD [])))) ∧
    (∀ (hasData : Bool) (n : ℕ), hasData = true → 0 < n →
      (chooseConfidence hasData 200 10000 n).level = .Low) := by
  refine ⟨?_, ?_, ?_⟩
  · intro hasData c p n
    refine ⟨?_, ?_, ?_, ?_⟩
    · intro h
      rcases h with h | h
      · subst h
        rfl
      · subst h
        cases hasData <;> rfl
    · intro hd hn h5000
      subst hd
      have hne : ¬ n = 0 := Nat.pos_iff_ne_zero.1 hn
      simp [chooseConfidence, hne, h5000]
    · intro hd hn hlt h500
      subst hd
      have hne : ¬ n = 0 := Nat.pos_iff_ne_zero.1 hn
      have h5 : ¬ 5000 ≤ min c p := not_le.2 hlt
      simp [chooseConfidence, hne, h5, h500]
    · intro hd hn hlt
      subst hd
      have hne : ¬ n = 0 := Nat.pos_iff_ne_zero.1 hn
      have h5 : ¬ 5000 ≤ min c p := not_le.2 (lt_trans hlt (by norm_num))
      have h50 : ¬ 500 ≤ min c p := not_le.2 hlt
      simp [chooseConfidence, hne, h5, h50]
  · intro u s preset io g
    constructor
    · intro hp
      rw [buildV2Answer_confidence_eq, hp]
    · intro pr hp
      rw [buildV2Answer_confidence_eq, hp]
      rfl
  · intro hasData n hd hn
    subst hd
    have hne : ¬ n = 0 := Nat.pos_iff_ne_zero.1 hn
    have h5 : ¬ (5000 : ℚ) ≤ min 200 10000 := by
      rw [min_def]
      norm_num
    have h50 : ¬ (500 : ℚ) ≤ min 200 10000 := by
      rw [min_def]
      norm_num
    simp [chooseConfidence, hne, h5, h50]

/-- C7 counterexample: with no GSC data at all there is no primary result,
and the built answer's confidence is the fixed Medium fallback, not Low. -/
theorem confidence_low_claim_counterexample :
    (buildV2Answer "m" "https://a.example" .last28 none none).confidence =
      ⟨.Medium, "No comparison totals were available, so guidance is directional."⟩ ∧
    V2ConfidenceLevel.Medium ≠ V2ConfidenceLevel.Low :=
  ⟨rfl, fun h => V2ConfidenceLevel.noConfusion h⟩

theorem buildV2Answer_confidence_spec_witness :
    chooseConfidence true 200 10000 3 =
      ⟨.Low,
        "Low impression volume makes the deltas volatile and harder to interpret confidently."⟩ ∧
    (buildV2Answer "m" "s" .last28 none none).confidence =
      ⟨.Medium, "No comparison totals were available, so guidance is directional."⟩ ∧
    (chooseConfidence true 200 10000 3).level = .Low := by
  refine ⟨?_, ?_, ?_⟩
  · exact (buildV2Answer_confidence_spec.1 true 200 10000 3).2.2.2 rfl (by norm_num)
      (by rw [min_def]; norm_num)
  · exact (buildV2Answer_confidence_spec.2.1 "m" "s" .last28 none none).1 rfl
  · exact buildV2Answer_confidence_spec.2.2 true 3 rfl (by norm_num)

/-! ### Claim C4 -/

theorem countEq_append (A B : List String) (t : String) :
    countEq (A ++ B) t = countEq A t + countEq B t := by
  unfold countEq
  rw [List.filter_append, List.length_append]

theorem countEq_eq_zero {L : List String} {t : String} (h : ∀ s ∈ L, ¬ s = t) :
    countEq L t = 0 := by
  unfold countEq
  have hnil : L.filter (fun s => s == t) = [] :=
    List.filter_eq_nil_iff.2 (by intro s hs; simp [h s hs])
  rw [hnil]
  rfl

theorem strNe_head {a b : String} (h : ¬ a.data.head? = b.data.head?) : ¬ a = b :=
  fun he => h (by rw [he])

theorem strNe_last {a b : String} (h : ¬ a.data.getLast? = b.data.getLast?) : ¬ a = b :=
  fun he => h (by rw [he])

theorem strLast_append (a b : String) (c : Char) (h : b.data.getLast? = some c) :
    (a ++ b).data.getLast? = some c := by
  rw [String.data_append a b, List.getLast?_append, h]
  rfl

theorem numbered_last (x s l : String) :
    (x ++ ". " ++ s ++ " [" ++ l ++ "]").data.getLast? = some ']' :=
  strLast_append (x ++ ". " ++ s ++ " [" ++ l) "]" ']' rfl

theorem ensureBetween_length {α : Type} (items : List α) (lo hi : ℕ) (filler : α)
    (h : lo ≤ hi) :
    lo ≤ (ensureBetween items lo hi filler).length ∧
      (ensureBetween items lo hi filler).length ≤ hi := by
  unfold ensureBetween
  rw [List.length_take, List.length_append, List.length_replicate]
  omega

theorem bullet_countEq_zero (L : List String) (H : String) (hH : H ∈ requiredHeadings) :
    countEq (L.map fun b => "• " ++ b) H = 0 := by
  apply countEq_eq_zero
  intro s hs
  obtain ⟨b, _, rfl⟩ := List.mem_map.1 hs
  apply strNe_head
  rw [String.data_append "• " b]
  rw [show (("• ".data ++ b.data).head? : Option Char) = some '•' from rfl]
  simp only [requiredHeadings, List.mem_cons, List.mem_nil_iff, or_false] at hH
  rcases hH with rfl | rfl | rfl | rfl | rfl <;> decide

theorem rec_countEq_zero (L : List V2Action) (H : String) (hH : H ∈ requiredHeadings) :
    countEq (L.enum.map fun p => toString (p.1 + 1) ++ ". " ++ jsTrim p.2.step ++ " [" ++
      priorityLabel p.2.priority ++ "]") H = 0 := by
  apply countEq_eq_zero
  intro s hs
  obtain ⟨p, _, rfl⟩ := List.mem_map.1 hs
  apply strNe_last
  rw [numbered_last]
  simp only [requiredHeadings, List.mem_cons, List.mem_nil_iff, or_false] at hH
  rcases hH with rfl | rfl | rfl | rfl | rfl <;> decide

theorem stands_ne_heading (t H : String) (hH : H ∈ requiredHeadings) :
    ¬ ("What stands out: " ++ t) = H := by
  apply strNe_head
  rw [String.data_append "What stands out: " t]
  rw [show (("What stands out: ".data ++ t.data).head? : Option Char) = some 'W' from rfl]
  simp only [requiredHeadings, List.mem_cons, List.mem_nil_iff, or_false] at hH
  rcases hH with rfl | rfl | rfl | rfl | rfl <;> decide

theorem conf_ne_heading (lvl : V2ConfidenceLevel) (t H : String)
    (hH : H ∈ requiredHeadings) : ¬ (confidenceLabel lvl ++ " — " ++ t) = H := by
  simp only [requiredHeadings, List.mem_cons, List.mem_nil_iff, or_false] at hH
  cases lvl
  case High =>
    apply strNe_head
    have hh : (confidenceLabel .High ++ " — " ++ t).data.head? = some 'H' := by
      rw [String.data_append]
      rfl
    rw [hh]
    rcases hH with rfl | rfl | rfl | rfl | rfl <;> decide
  case Medium =>
    apply strNe_head
    have hh : (confidenceLabel .Medium ++ " — " ++ t).data.head? = some 'M' := by
      rw [String.data_append]
      rfl
    rw [hh]
    rcases hH with rfl | rfl | rfl | rfl | rfl <;> decide
  case Low =>
    apply strNe_head
    have hh : (confidenceLabel .Low ++ " — " ++ t).data.head? = some 'L' := by
      rw [String.data_append]
      rfl
    rw [hh]
    rcases hH with rfl | rfl | rfl | rfl | rfl <;> decide

/-- Claim C4: for any answer whose trimmed summary is not itself one of the
required heading lines, the renderer's line list contains each of the five
headings exactly once, in the fixed order, with 4 to 8 bullet lines under
Key findings, 3 to 6 under Likely causes, 3 to 7 numbered action lines of
the form `N. <text> [<Priority>]`, and the `What stands out:` line between
the actions and the `## Confidence` heading (separated from each by one
blank line); without the summary restriction the uniqueness of the
headings can fail, since the summary is echoed verbatim as a line. -/
theorem render_markdown_shape (answer : V2Answer)
    (hsum : jsTrim answer.summary ∉ requiredHeadings) :
    (∀ H ∈ requiredHeadings, countEq (renderV2AnswerLines answer) H = 1) ∧
    (∃ kfLines lcLines recLines : List String,
      renderV2AnswerLines answer =
        ["## Summary", jsTrim answer.summary, "", "## Key findings"] ++ kfLines ++
          ["", "## Likely causes"] ++ lcLines ++ ["", "## Recommended actions"] ++ recLines ++
          ["", "What stands out: " ++ firstSentence answer.whatStandsOut, "", "## Confidence",
            confidenceLabel answer.confidence.level ++ " — " ++
              firstSentence answer.confidence.reason] ∧
      4 ≤ kfLines.length ∧ kfLines.length ≤ 8 ∧
      (∀ l ∈ kfLines, ∃ b, l = "• " ++ b) ∧
      3 ≤ lcLines.length ∧ lcLines.length ≤ 6 ∧
      (∀ l ∈ lcLines, ∃ b, l = "• " ++ b) ∧
      3 ≤ recLines.length ∧ recLines.length ≤ 7 ∧
      (∀ (i : ℕ) (hi : i < recLines.length), ∃ a : V2Action,
        recLines[i] = toString (i + 1) ++ ". " ++ jsTrim a.step ++ " [" ++
          priorityLabel a.priority ++ "]")) := by
  have hlines : renderV2AnswerLines answer =
      ["## Summary", jsTrim answer.summary, "", "## Key findings"] ++
        (ensureBetween ((answer.keyFindings.map jsTrim).filter fun s => s ≠ "") 4 8 "—").map
          (fun b => "• " ++ b) ++
        ["", "## Likely causes"] ++
        (ensureBetween ((answer.likelyCauses.map jsTrim).filter fun s => s ≠ "") 3 6 "—").map
          (fun b => "• " ++ b) ++
        ["", "## Recommended actions"] ++
        (ensureBetween answer.recommendedActions 3 7
          ⟨"Review and iterate based on the biggest movers.", .low⟩).enum.map
          (fun p => toString (p.1 + 1) ++ ". " ++ jsTrim p.2.step ++ " [" ++
            priorityLabel p.2.priority ++ "]") ++
        ["", "What stands out: " ++ firstSentence answer.whatStandsOut, "", "## Confidence",
          confidenceLabel answer.confidence.level ++ " — " ++
            firstSentence answer.confidence.reason] := rfl
  simp only [requiredHeadings, List.mem_cons, List.mem_nil_iff, or_false, not_or] at hsum
  obtain ⟨h1, h2, h3, h4, h5⟩ := hsum
  constructor
  · intro H hH
    simp only [requiredHeadings, List.mem_cons, List.mem_nil_iff, or_false] at hH
    rcases hH with rfl | rfl | rfl | rfl | rfl
    · have hm : ("## Summary" : String) ∈ requiredHeadings := by decide
      rw [hlines]
      simp only [countEq_append]
      rw [bullet_countEq_zero _ _ hm, bullet_countEq_zero _ _ hm, rec_countEq_zero _ _ hm]
      simp [countEq, List.filter_cons, List.filter_nil, h1,
        stands_ne_heading _ _ hm, conf_ne_heading _ _ _ hm]
    · have hm : ("## Key findings" : String) ∈ requiredHeadings := by decide
      rw [hlines]
      simp only [countEq_append]
      rw [bullet_countEq_zero _ _ hm, bullet_countEq_zero _ _ hm, rec_countEq_zero _ _ hm]
      simp [countEq, List.filter_cons, List.filter_nil, h2,
        stands_ne_heading _ _ hm, conf_ne_heading _ _ _ hm]
    · have hm : ("## Likely causes" : String) ∈ requiredHeadings := by decide
      rw [hlines]
      simp only [countEq_append]
      rw [bullet_countEq_zero _ _ hm, bullet_countEq_zero _ _ hm, rec_countEq_zero _ _ hm]
      simp [countEq, List.filter_cons, List.filter_nil, h3,
        stands_ne_heading _ _ hm, conf_ne_heading _ _ _ hm]
    · have hm : ("## Recommended actions" : String) ∈ requiredHeadings := by decide
      rw [hlines]
      simp only [countEq_append]
      rw [bullet_countEq_zero _ _ hm, bullet_countEq_zero _ _ hm, rec_countEq_zero _ _ hm]
      simp [countEq, List.filter_cons, List.filter_nil, h4,
        stands_ne_heading _ _ hm, conf_ne_heading _ _ _ hm]
    · have hm : ("## Confidence" : String) ∈ requiredHeadings := by decide
      rw [hlines]
      simp only [countEq_append]
      rw [bullet_countEq_zero _ _ hm, bullet_countEq_zero _ _ hm, rec_countEq_zero _ _ hm]
      simp [countEq, List.filter_cons, List.filter_nil, h5,
        stands_ne_heading _ _ hm, conf_ne_heading _ _ _ hm]
  · refine ⟨_, _, _, hlines, ?_, ?_, ?_, ?_, ?_, ?_, ?_, ?_, ?_⟩
    · rw [List.length_map]
      exact (ensureBetween_length _ 4 8 _ (by decide)).1
    · rw [List.length_map]
      exact (ensureBetween_length _ 4 8 _ (by decide)).2
    · intro l hl
      obtain ⟨b, _, rfl⟩ := List.mem_map.1 hl
      exact ⟨b, rfl⟩
    · rw [List.length_map]
      exact (ensureBetween_length _ 3 6 _ (by decide)).1
    · rw [List.length_map]
      exact (ensureBetween_length _ 3 6 _ (by decide)).2
    · intro l hl
      obtain ⟨b, _, rfl⟩ := List.mem_map.1 hl
      exact ⟨b, rfl⟩
    · rw [List.length_map, List.enum_length]
      exact (ensureBetween_length _ 3 7 _ (by decide)).1
    · rw [List.length_map, List.enum_length]
      exact (ensureBetween_length _ 3 7 _ (by decide)).2
    · intro i hi
      have hi3 : i < (ensureBetween answer.recommendedActions 3 7
          ⟨"Review and iterate based on the biggest movers.", .low⟩).length := by
        simpa using hi
      refine ⟨(ensureBetween answer.recommendedActions 3 7
          ⟨"Review and iterate based on the biggest movers.", .low⟩).get ⟨i, hi3⟩, ?_⟩
      simp only [List.getElem_map, List.getElem_enum]
      rfl

/-- An answer whose summary is itself a heading line. -/
def badAnswer : V2Answer :=
  ⟨"## Key findings", [], [], [], "x", ⟨.Low, "r"⟩, [], []⟩

/-- C4 counterexample: for an arbitrary answer the heading-uniqueness part
of the rendering contract fails: a summary equal to "## Key findings" is
echoed as a line, so that heading occurs twice. -/
theorem render_heading_claim_counterexample :
    countEq (renderV2AnswerLines badAnswer) "## Key findings" = 2 := by decide

/-- A well-formed concrete answer. -/
def goodAnswer : V2Answer :=
  ⟨"All good.", ["a", "b", "c", "d"], ["x", "y", "z"],
    [⟨"do", .high⟩, ⟨"redo", .med⟩, ⟨"undo", .low⟩],
    "big", ⟨.High, "solid"⟩, [], []⟩

theorem render_markdown_shape_witness :
    jsTrim goodAnswer.summary ∉ requiredHeadings ∧
    countEq (renderV2AnswerLines goodAnswer) "## Summary" = 1 ∧
    countEq (renderV2AnswerLines goodAnswer) "## Confidence" = 1 := by
  have hs : jsTrim goodAnswer.summary ∉ requiredHeadings := by decide
  exact ⟨hs, (render_markdown_shape goodAnswer hs).1 "## Summary" (by decide),
    (render_markdown_shape goodAnswer hs).1 "## Confidence" (by decide)⟩
